import Mathlib

/-
Shallow embedding of `src/src/csm_association.c` (Cosem ACSE services:
AARQ decoding, association authorization, AARE encoding, release handling).

The byte-buffer cursor (`csm_array`), the BER header primitives (`csm_ber`),
the A-XDR null reader and the system services are external collaborators of
that file; they are modelled here from the specification's collaborator
contracts (spec sections 4 and 6).  Bytes are `Nat` values; writes truncate
to 8 bits with `% 256` the way a `uint8_t` store does.
-/

set_option autoImplicit false
set_option linter.unusedVariables false

/- ----------------------- Wire-format constants ----------------------- -/
/- Values fixed by the AARQ/AARE/RLRQ/RLRE grammars quoted in the source
   comments and by the spec's external-interface tables. -/

def CSM_ASSO_AARQ : Nat := 0x60
def CSM_ASSO_AARE : Nat := 0x61
def CSM_ASSO_RLRQ : Nat := 0x62
def CSM_ASSO_RLRE : Nat := 0x63
def CSM_ASSO_PROTO_VER : Nat := 0x80
def CSM_ASSO_APP_CONTEXT_NAME : Nat := 0xA1
def CSM_ASSO_CALLED_AP_TITLE : Nat := 0xA2
def CSM_ASSO_CALLED_AE_QUALIFIER : Nat := 0xA3
def CSM_ASSO_CALLED_AP_INVOC_ID : Nat := 0xA4
def CSM_ASSO_CALLED_AE_INVOC_ID : Nat := 0xA5
def CSM_ASSO_CALLING_AP_TITLE : Nat := 0xA6
def CSM_ASSO_CALLING_AE_QUALIFIER : Nat := 0xA7
def CSM_ASSO_CALLING_AP_INVOC_ID : Nat := 0xA8
def CSM_ASSO_CALLING_AE_INVOC_ID : Nat := 0xA9
def CSM_ASSO_SENDER_ACSE_REQU : Nat := 0x8A
def CSM_ASSO_REQ_MECHANISM_NAME : Nat := 0x8B
def CSM_ASSO_CALLING_AUTH_VALUE : Nat := 0xAC
def CSM_ASSO_IMPLEMENTATION_INFO : Nat := 0xBD
def CSM_ASSO_USER_INFORMATION : Nat := 0xBE
def CSM_ASSO_RESULT_FIELD : Nat := 0xA2
def CSM_ASSO_RESULT_SRC_DIAG : Nat := 0xA3
def CSM_ASSO_RESP_AP_TITLE : Nat := 0xA4
def CSM_ASSO_RESPONDER_ACSE_REQ : Nat := 0x88
def CSM_ASSO_RESP_MECHANISM_NAME : Nat := 0x89
def CSM_ASSO_RESP_AUTH_VALUE : Nat := 0xAA
def CSM_ASSO_RESULT_SERVICE_USER : Nat := 0xA1
def BER_TYPE_INTEGER : Nat := 0x02
def BER_TYPE_OBJECT_IDENTIFIER : Nat := 0x06
def BER_TYPE_OCTET_STRING : Nat := 0x04
def TAG_CONTEXT_SPECIFIC : Nat := 0x80
def AXDR_INITIATE_REQUEST : Nat := 0x01
def AXDR_INITIATE_RESPONSE : Nat := 0x08
def AXDR_TAG_NULL : Nat := 0x00

/-- Modelled from the spec: fixed protocol sizes of this profile
(`csm_association.h` is not part of the source tree). -/
def CSM_DEF_LLS_SIZE : Nat := 8
def CSM_DEF_CHALLENGE_SIZE : Nat := 64
def CSM_DEF_APP_TITLE_SIZE : Nat := 8
def CSM_DEF_PDU_SIZE : Nat := 1024

def APP_CONTEXT_NAME : Nat := 1
def SECURITY_MECHANISM_NAME : Nat := 2

/- Referencing modes; the numeric codes are the OID `id` bytes quoted in the
   source comments (LN = 1, SN = 2, LN ciphered = 3, SN ciphered = 4). -/
def NO_REF : Nat := 0
def LN_REF : Nat := 1
def SN_REF : Nat := 2
def LN_REF_WITH_CYPHERING : Nat := 3
def SN_REF_WITH_CYPHERING : Nat := 4

/- Authentication levels; codes are the mechanism-name OID `id` bytes quoted
   in the source comments (low level = 1, high level GMAC = 5). -/
def CSM_AUTH_LOWEST_LEVEL : Nat := 0
def CSM_AUTH_LOW_LEVEL : Nat := 1
def CSM_AUTH_HIGH_LEVEL_GMAC : Nat := 5

def CF_IDLE : Nat := 0
def CF_ASSOCIATION_PENDING : Nat := 1
def CF_ASSOCIATED : Nat := 2

/- Handshake result codes; the values are the `acse-service-user` diagnostic
   integers of the Associate-source-diagnostic grammar quoted in the source. -/
def CSM_ASSO_ERR_NULL : Nat := 0
def CSM_ASSO_AUTH_UNKNOWN : Nat := 11
def CSM_ASSO_ERR_AUTH_FAILURE : Nat := 13
def CSM_ASSO_AUTH_REQUIRED : Nat := 14

/-- Fixed DLMS-UA organization prefix of every object identifier. -/
def cOidHeader : List Nat := [0x60, 0x85, 0x74, 0x05, 0x08]

/- ----------------------- Data model ----------------------- -/

/-- Byte-buffer cursor.  `buf` holds the valid bytes (so the write index of
the C struct is `buf.length`), `cap` is the capacity of the backing buffer
and `rd_index` the read position. -/
structure csm_array where
  buf : List Nat
  cap : Nat
  rd_index : Nat
deriving DecidableEq

structure ber_tag where
  tag : Nat
  id : Nat
  ext : Nat
  isPrimitive : Bool
deriving DecidableEq

structure ber_length where
  length : Nat
deriving DecidableEq

structure csm_ber where
  tag : ber_tag
  length : ber_length
deriving DecidableEq

structure csm_challenge where
  value : List Nat
  size : Nat
deriving DecidableEq

structure csm_handshake where
  ctos : csm_challenge
  stoc : csm_challenge
  proposed_conformance : Nat
  client_max_receive_pdu_size : Nat
  result : Nat
deriving DecidableEq

structure csm_llc where
  dsap : Nat
deriving DecidableEq

structure csm_config where
  conformance : Nat
  llc : csm_llc
deriving DecidableEq

structure csm_asso_state where
  state_cf : Nat
  auth_level : Nat
  ref : Nat
  client_app_title : List Nat
  handshake : csm_handshake
  config : csm_config
deriving DecidableEq

/-- Modelled from the spec: system services consumed by the core
(`get_system_title`, `get_random_byte`, `check_password`), passed as an
explicit oracle parameter.  The random source is indexed by draw number. -/
structure csm_sys where
  test_lls_password : Nat → List Nat → Bool
  get_system_title : List Nat
  get_random_u8 : Nat → Nat

/- ----------------------- Cursor primitives ----------------------- -/

/-- Modelled from the spec: bounded single-byte read from the cursor. -/
def csm_array_read_u8 (a : csm_array) : Option (Nat × csm_array) :=
  if a.rd_index < a.buf.length then
    some (a.buf.getD a.rd_index 0, { a with rd_index := a.rd_index + 1 })
  else none

/-- Modelled from the spec: bounded big-endian 16-bit read from the cursor. -/
def csm_array_read_u16 (a : csm_array) : Option (Nat × csm_array) :=
  match csm_array_read_u8 a with
  | none => none
  | some (hi, a1) =>
    match csm_array_read_u8 a1 with
    | none => none
    | some (lo, a2) => some (hi * 256 + lo, a2)

/-- Modelled from the spec: bounded raw-byte-range read from the cursor. -/
def csm_array_read_buff (a : csm_array) (n : Nat) : Option (List Nat × csm_array) :=
  if a.rd_index + n ≤ a.buf.length then
    some ((a.buf.drop a.rd_index).take n, { a with rd_index := a.rd_index + n })
  else none

/-- Modelled from the spec: advance the read position over `n` bytes. -/
def csm_array_reader_jump (a : csm_array) (n : Nat) : Option csm_array :=
  if a.rd_index + n ≤ a.buf.length then some { a with rd_index := a.rd_index + n }
  else none

/-- Modelled from the spec: number of bytes left to read. -/
def csm_array_unread (a : csm_array) : Nat := a.buf.length - a.rd_index

/-- Modelled from the spec: absolute-position peek into the buffer. -/
def csm_array_get (a : csm_array) (i : Nat) : Option Nat := a.buf.get? i

/-- Modelled from the spec: patch an already-written byte at an absolute
offset. -/
def csm_array_set (a : csm_array) (i v : Nat) : Option csm_array :=
  if i < a.buf.length then some { a with buf := a.buf.set i (v % 256) } else none

/-- Modelled from the spec: bounded single-byte append at the write index. -/
def csm_array_write_u8 (a : csm_array) (b : Nat) : Option csm_array :=
  if a.buf.length < a.cap then some { a with buf := a.buf ++ [b % 256] } else none

/-- Modelled from the spec: bounded raw-byte-range append at the write
index. -/
def csm_array_write_buff (a : csm_array) (bs : List Nat) : Option csm_array :=
  if a.buf.length + bs.length ≤ a.cap then
    some { a with buf := a.buf ++ bs.map (· % 256) }
  else none

/- ----------------------- BER / A-XDR primitives ----------------------- -/

/-- Modelled from the spec: decode one tag+length header, producing
`(tag, length, is-primitive)` or failing on truncation.  Extended tag form
(low five tag bits all set) carries the tag number in a second byte; only
single-byte definite lengths occur in this profile. -/
def csm_ber_decode (a : csm_array) : Option (csm_ber × csm_array) :=
  match csm_array_read_u8 a with
  | none => none
  | some (t, a1) =>
    let id := t % 32
    let prim := t / 32 % 2 == 0
    if id = 0x1F then
      match csm_array_read_u8 a1 with
      | none => none
      | some (e, a2) =>
        match csm_array_read_u8 a2 with
        | none => none
        | some (l, a3) =>
          if l ≤ 127 then some ({ tag := ⟨t, id, e, prim⟩, length := ⟨l⟩ }, a3) else none
    else
      match csm_array_read_u8 a1 with
      | none => none
      | some (l, a2) =>
        if l ≤ 127 then some ({ tag := ⟨t, id, 0, prim⟩, length := ⟨l⟩ }, a2) else none

/-- Modelled from the spec: write a BER length field, single-byte form
(this profile never needs the long form). -/
def csm_ber_write_len (a : csm_array) (n : Nat) : Option csm_array :=
  if n ≤ 127 then csm_array_write_u8 a n else none

/-- Modelled from the spec: write a one-byte BER INTEGER together with its
enclosing length, producing the bytes `03 02 01 v` (content length, INTEGER
tag, value length, value) as in the Association-result field. -/
def csm_ber_write_integer (a : csm_array) (v : Nat) : Option csm_array :=
  match csm_ber_write_len a 3 with
  | none => none
  | some a1 =>
    match csm_array_write_u8 a1 BER_TYPE_INTEGER with
    | none => none
    | some a2 =>
      match csm_ber_write_len a2 1 with
      | none => none
      | some a3 => csm_array_write_u8 a3 v

/-- Modelled from the spec: read one A-XDR byte and require the null tag. -/
def csm_axdr_rd_null (a : csm_array) : Bool × csm_array :=
  match csm_array_read_u8 a with
  | some (b, a1) => (b == 0, a1)
  | none => (false, a)

/-- Modelled from the spec: validate the fixed 5-byte organization prefix
byte-for-byte, then read the `(name-selector, id)` pair.  Returns
`(ok, name, id)` together with the advanced cursor. -/
def csm_ber_decode_object_identifier (header : List Nat) (a : csm_array) :
    Bool × Nat × Nat × csm_array :=
  match csm_array_read_buff a 5 with
  | none => (false, 0, 0, a)
  | some (pre, a1) =>
    if pre = header then
      match csm_array_read_u8 a1 with
      | none => (false, 0, 0, a1)
      | some (nm, a2) =>
        match csm_array_read_u8 a2 with
        | none => (false, 0, 0, a2)
        | some (i, a3) => (true, nm, i, a3)
    else (false, 0, 0, a1)

/- ----------------------- AARQ field decoders ----------------------- -/

def acse_proto_version_decoder (state : csm_asso_state) (ber : csm_ber)
    (array : csm_array) : Bool × csm_asso_state × csm_array :=
  if ber.length.length = 2 then
    match csm_array_read_u8 array with
    | none => (false, state, array)
    | some (unused_bytes, a1) =>
      match csm_array_read_u8 a1 with
      | none => (false, state, a1)
      | some (version, a2) => (unused_bytes == 7 && version == 0x80, state, a2)
  else (false, state, array)

def acse_app_context_decoder (state : csm_asso_state) (ber : csm_ber)
    (array : csm_array) : Bool × csm_asso_state × csm_array :=
  (ber.length.length == 9, state, array)

def acse_oid_decoder (state : csm_asso_state) (ber : csm_ber)
    (array : csm_array) : Bool × csm_asso_state × csm_array :=
  match csm_ber_decode_object_identifier cOidHeader array with
  | (ok, nm, id, a1) =>
    if ok then
      if nm = APP_CONTEXT_NAME then
        if id = LN_REF then (true, { state with ref := LN_REF }, a1)
        else if id = SN_REF then (true, { state with ref := SN_REF }, a1)
        else if id = LN_REF_WITH_CYPHERING then
          (true, { state with ref := LN_REF_WITH_CYPHERING }, a1)
        else if id = SN_REF_WITH_CYPHERING then
          (true, { state with ref := SN_REF_WITH_CYPHERING }, a1)
        else (false, state, a1)
      else if nm = SECURITY_MECHANISM_NAME then
        if id = CSM_AUTH_LOW_LEVEL then
          (true, { state with auth_level := CSM_AUTH_LOW_LEVEL }, a1)
        else if id = CSM_AUTH_HIGH_LEVEL_GMAC then
          (true, { state with auth_level := CSM_AUTH_HIGH_LEVEL_GMAC }, a1)
        else (false, state, a1)
      else (false, state, a1)
    else (false, state, a1)

def acse_req_decoder (state : csm_asso_state) (ber : csm_ber)
    (array : csm_array) : Bool × csm_asso_state × csm_array :=
  if ber.length.length = 2 then
    match csm_array_read_u8 array with
    | none => (false, state, array)
    | some (b1, a1) =>
      if b1 = 0x07 then
        match csm_array_read_u8 a1 with
        | none => (false, state, a1)
        | some (b2, a2) => (b2 == 0x80, state, a2)
      else (false, state, a1)
  else (false, state, array)

def acse_auth_value_decoder (state : csm_asso_state) (ber : csm_ber)
    (array : csm_array) : Bool × csm_asso_state × csm_array :=
  match csm_ber_decode array with
  | none => (false, state, array)
  | some (b, a1) =>
    if CSM_DEF_LLS_SIZE ≤ b.length.length ∧ b.length.length ≤ CSM_DEF_CHALLENGE_SIZE then
      if b.tag.tag = TAG_CONTEXT_SPECIFIC then
        match csm_array_read_buff a1 b.length.length with
        | none => (false, state, a1)
        | some (bytes, a2) =>
          (true,
           { state with handshake := { state.handshake with
               ctos := { value := bytes, size := b.length.length } } }, a2)
      else (false, state, a1)
    else (false, state, a1)

/-- Continuation of the user-information decoder after the dedicated-key
marker byte: response-allowed and QoS nulls, version check, then the
conformance block with the off-by-one assignment of the source. -/
def acse_user_info_tail (state : csm_asso_state) (b1 : csm_ber)
    (a3 : csm_array) : Bool × csm_asso_state × csm_array :=
  match csm_axdr_rd_null a3 with
  | (v1, a4) =>
    match (if v1 then csm_axdr_rd_null a4 else (false, a4)) with
    | (v2, a5) =>
      match (if v2 then
               match csm_array_read_u8 a5 with
               | some (b, ax) => (true, b, ax)
               | none => (false, 0, a5)
             else (false, 0, a5)) with
      | (v3, bv, a6) =>
        match (if v3 && (bv == 6) then
                 match csm_ber_decode a6 with
                 | some (b2, ax) => (true, b2, ax)
                 | none => (false, b1, a6)
               else (false, b1, a6)) with
        | (v5, b2, a7) =>
          if b2.tag.tag = 0x5F ∧ b2.tag.ext = 31 then
            if b2.length.length = 4 then
              match (if v5 then
                       match csm_array_read_u8 a7 with
                       | some (b, ax) => (true, b, ax)
                       | none => (false, bv, a7)
                     else (false, bv, a7)) with
              | (w1, u1, c1) =>
                match (if w1 && (u1 == 0) then
                         match csm_array_read_u8 c1 with
                         | some (b, ax) => (true, b, ax)
                         | none => (false, u1, c1)
                       else (false, u1, c1)) with
                | (w3, u2, c2) =>
                  match (if w3 then
                           match csm_array_read_u8 c2 with
                           | some (b, ax) => (true, b, ax)
                           | none => (false, u2, c2)
                         else (false, u2, c2)) with
                  | (w4, u3, c3) =>
                    match (if w4 then
                             match csm_array_read_u16 c3 with
                             | some (w, ax) => (true, w, ax)
                             | none => (false, state.handshake.client_max_receive_pdu_size, c3)
                           else (false, state.handshake.client_max_receive_pdu_size, c3)) with
                    | (w5, pdu, c4) =>
                      (w5,
                       { state with handshake := { state.handshake with
                           proposed_conformance := u1 * 65536 + u2 * 256 + u3
                           client_max_receive_pdu_size := pdu } }, c4)
            else (v5, state, a7)
          else (false, state, a7)

/-- Decoder of the user-information field carrying the A-XDR
InitiateRequest.  The `valid` flag and the reused `byte` local of the C code
are threaded explicitly; note that the conformance MSB is assigned from the
just-checked unused-bits byte (source line 348) without a fresh read.  On a
failed header decode the C leaves the header partially written; here the
previous header value is kept (no claim depends on that corner). -/
def acse_user_info_decoder (state : csm_asso_state) (ber : csm_ber)
    (array : csm_array) : Bool × csm_asso_state × csm_array :=
  match csm_ber_decode array with
  | none => (false, state, array)
  | some (b1, a1) =>
    if b1.tag.id = BER_TYPE_OCTET_STRING then
      match csm_array_read_u8 a1 with
      | none => (false, state, a1)
      | some (byte0, a2) =>
        if byte0 = AXDR_INITIATE_REQUEST then
          match csm_array_read_u8 a2 with
          | some (_, a3) => acse_user_info_tail state b1 a3
          | none => acse_user_info_tail state b1 a2
        else (false, state, a2)
    else (false, state, a1)

def acse_client_system_title_decoder (state : csm_asso_state) (ber : csm_ber)
    (array : csm_array) : Bool × csm_asso_state × csm_array :=
  match csm_ber_decode array with
  | none => (false, state, array)
  | some (b, a1) =>
    if b.length.length = CSM_DEF_APP_TITLE_SIZE then
      if b.tag.id = BER_TYPE_OCTET_STRING then
        match csm_array_read_buff a1 CSM_DEF_APP_TITLE_SIZE with
        | none => (false, state, a1)
        | some (bytes, a2) => (true, { state with client_app_title := bytes }, a2)
      else (false, state, a1)
    else (false, state, a1)

def acse_skip_decoder (state : csm_asso_state) (ber : csm_ber)
    (array : csm_array) : Bool × csm_asso_state × csm_array :=
  if ber.tag.isPrimitive then
    (true, state, (csm_array_reader_jump array ber.length.length).getD array)
  else (true, state, array)

/- ----------------------- Field codec table ----------------------- -/

inductive acse_context where
  | ACSE_NONE
  | ACSE_ANY
  | ACSE_OPT
  | ACSE_SEC
deriving DecidableEq

abbrev extract_param :=
  csm_asso_state → csm_ber → csm_array → Bool × csm_asso_state × csm_array

abbrev insert_param :=
  csm_sys → csm_asso_state → csm_array → Bool × csm_asso_state × csm_array

structure csm_asso_codec where
  tag : Nat
  context : acse_context
  extract_func : Option extract_param
  insert_func : Option insert_param

open acse_context in
def aarq_codec_chain : List csm_asso_codec :=
  [ ⟨CSM_ASSO_PROTO_VER,            ACSE_NONE, some acse_proto_version_decoder, none⟩,
    ⟨CSM_ASSO_APP_CONTEXT_NAME,     ACSE_ANY,  some acse_app_context_decoder, none⟩,
    ⟨BER_TYPE_OBJECT_IDENTIFIER,    ACSE_ANY,  some acse_oid_decoder, none⟩,
    ⟨CSM_ASSO_CALLED_AP_TITLE,      ACSE_NONE, some acse_skip_decoder, none⟩,
    ⟨CSM_ASSO_CALLED_AE_QUALIFIER,  ACSE_NONE, some acse_skip_decoder, none⟩,
    ⟨CSM_ASSO_CALLED_AP_INVOC_ID,   ACSE_NONE, some acse_skip_decoder, none⟩,
    ⟨BER_TYPE_INTEGER,              ACSE_NONE, some acse_skip_decoder, none⟩,
    ⟨CSM_ASSO_CALLED_AE_INVOC_ID,   ACSE_NONE, some acse_skip_decoder, none⟩,
    ⟨BER_TYPE_INTEGER,              ACSE_NONE, some acse_skip_decoder, none⟩,
    ⟨CSM_ASSO_CALLING_AP_TITLE,     ACSE_OPT,  some acse_client_system_title_decoder, none⟩,
    ⟨CSM_ASSO_CALLING_AE_QUALIFIER, ACSE_NONE, some acse_skip_decoder, none⟩,
    ⟨CSM_ASSO_CALLING_AP_INVOC_ID,  ACSE_NONE, some acse_skip_decoder, none⟩,
    ⟨BER_TYPE_INTEGER,              ACSE_NONE, some acse_skip_decoder, none⟩,
    ⟨CSM_ASSO_CALLING_AE_INVOC_ID,  ACSE_NONE, some acse_skip_decoder, none⟩,
    ⟨BER_TYPE_INTEGER,              ACSE_NONE, some acse_skip_decoder, none⟩,
    ⟨CSM_ASSO_SENDER_ACSE_REQU,     ACSE_OPT,  some acse_req_decoder, none⟩,
    ⟨CSM_ASSO_REQ_MECHANISM_NAME,   ACSE_OPT,  some acse_oid_decoder, none⟩,
    ⟨CSM_ASSO_CALLING_AUTH_VALUE,   ACSE_OPT,  some acse_auth_value_decoder, none⟩,
    ⟨CSM_ASSO_IMPLEMENTATION_INFO,  ACSE_OPT,  some acse_skip_decoder, none⟩,
    ⟨CSM_ASSO_USER_INFORMATION,     ACSE_OPT,  some acse_user_info_decoder, none⟩ ]

/- ----------------------- AARQ decode engine ----------------------- -/

/-- Main decoding loop of `csm_asso_decoder`: walk the codec table with the
already-buffered TLV header `ber`.  On a tag match run the entry's decoder
(forgiving a failure of an `ACSE_OPT` entry) and, when entries remain,
decode the next header; on a tag mismatch consume nothing and advance to
the next entry with the same buffered header. -/
def asso_decode_loop :
    csm_asso_state → csm_ber → csm_array → List csm_asso_codec →
      Bool × csm_asso_state × csm_array
  | state, _, array, [] => (true, state, array)
  | state, ber, array, codec :: rest =>
    if ber.tag.tag = codec.tag then
      let r := match codec.extract_func with
               | some f => f state ber array
               | none => (false, state, array)
      let ok := r.1 || (codec.context == acse_context.ACSE_OPT)
      if ok then
        match rest with
        | [] => (true, r.2.1, r.2.2)
        | _ :: _ =>
          match csm_ber_decode r.2.2 with
          | none => (false, r.2.1, r.2.2)
          | some (b2, a2) => asso_decode_loop r.2.1 b2 a2 rest
      else (false, r.2.1, r.2.2)
    else asso_decode_loop state ber array rest

def csm_asso_decoder (state : csm_asso_state) (array : csm_array) :
    Bool × csm_asso_state × csm_array :=
  match csm_ber_decode array with
  | none => (false, state, array)
  | some (ber, a1) =>
    if ber.length.length = csm_array_unread a1 ∧ ber.tag.tag = CSM_ASSO_AARQ then
      match csm_ber_decode a1 with
      | none => (false, state, a1)
      | some (b2, a2) => asso_decode_loop state b2 a2 aarq_codec_chain
    else (false, state, a1)

/- ----------------------- Encoder write helpers ----------------------- -/

/-- One `valid = valid && csm_array_write_u8(...)` step of the C encoders. -/
def wr (p : Bool × csm_array) (b : Nat) : Bool × csm_array :=
  if p.1 then
    match csm_array_write_u8 p.2 b with
    | some a => (true, a)
    | none => (false, p.2)
  else p

/-- A run of consecutive byte writes. -/
def wrSeq (p : Bool × csm_array) (bs : List Nat) : Bool × csm_array :=
  bs.foldl wr p

/-- One `valid = valid && csm_ber_write_len(...)` step. -/
def blen (p : Bool × csm_array) (n : Nat) : Bool × csm_array :=
  if p.1 then
    match csm_ber_write_len p.2 n with
    | some a => (true, a)
    | none => (false, p.2)
  else p

/-- One `valid = valid && csm_array_write_buff(...)` step. -/
def bbuf (p : Bool × csm_array) (bs : List Nat) : Bool × csm_array :=
  if p.1 then
    match csm_array_write_buff p.2 bs with
    | some a => (true, a)
    | none => (false, p.2)
  else p

/-- One `valid = valid && csm_array_set(...)` step. -/
def bset (p : Bool × csm_array) (i v : Nat) : Bool × csm_array :=
  if p.1 then
    match csm_array_set p.2 i v with
    | some a => (true, a)
    | none => (false, p.2)
  else p

/- ----------------------- AARE field encoders ----------------------- -/

def acse_proto_version_encoder (sys : csm_sys) (state : csm_asso_state)
    (array : csm_array) : Bool × csm_asso_state × csm_array :=
  let p := blen (true, array) 2
  let p := wr p 7
  let p := wr p 0x80
  (p.1, state, p.2)

def acse_app_context_encoder (sys : csm_sys) (state : csm_asso_state)
    (array : csm_array) : Bool × csm_asso_state × csm_array :=
  match csm_ber_write_len array 9 with
  | none => (false, state, array)
  | some a1 => (true, state, a1)

def acse_oid_encoder (array : csm_array) (nm id : Nat) : Bool × csm_array :=
  let p := blen (true, array) 7
  let p := bbuf p cOidHeader
  let p := wr p nm
  let p := wr p id
  p

def acse_oid_context_encoder (sys : csm_sys) (state : csm_asso_state)
    (array : csm_array) : Bool × csm_asso_state × csm_array :=
  let p := acse_oid_encoder array APP_CONTEXT_NAME state.ref
  (p.1, state, p.2)

def acse_result_encoder (sys : csm_sys) (state : csm_asso_state)
    (array : csm_array) : Bool × csm_asso_state × csm_array :=
  let result : Nat := if state.state_cf = CF_IDLE then 1 else 0
  match csm_ber_write_integer array result with
  | none => (false, state, array)
  | some a1 => (true, state, a1)

def acse_result_src_diag_encoder (sys : csm_sys) (state : csm_asso_state)
    (array : csm_array) : Bool × csm_asso_state × csm_array :=
  match csm_ber_write_len array 5 with
  | none => (false, state, array)
  | some a1 =>
    match csm_array_write_u8 a1 CSM_ASSO_RESULT_SERVICE_USER with
    | none => (false, state, a1)
    | some a2 =>
      match csm_ber_write_integer a2 state.handshake.result with
      | none => (false, state, a2)
      | some a3 => (true, state, a3)

def acse_resp_system_title_encoder (sys : csm_sys) (state : csm_asso_state)
    (array : csm_array) : Bool × csm_asso_state × csm_array :=
  let p := blen (true, array) (CSM_DEF_APP_TITLE_SIZE + 2)
  let p := wr p BER_TYPE_OCTET_STRING
  let p := wr p CSM_DEF_APP_TITLE_SIZE
  let p := bbuf p ((List.range CSM_DEF_APP_TITLE_SIZE).map
      (fun i => sys.get_system_title.getD i 0))
  (p.1, state, p.2)

def acse_responder_requirements_encoder (sys : csm_sys) (state : csm_asso_state)
    (array : csm_array) : Bool × csm_asso_state × csm_array :=
  let p := blen (true, array) 2
  let p := wr p 7
  let p := wr p 0x80
  (p.1, state, p.2)

def acse_oid_mechanism_encoder (sys : csm_sys) (state : csm_asso_state)
    (array : csm_array) : Bool × csm_asso_state × csm_array :=
  let p := acse_oid_encoder array SECURITY_MECHANISM_NAME state.auth_level
  (p.1, state, p.2)

/-- The server-to-client challenge mirrors the client challenge's length;
the generated bytes are recorded in the handshake scratch even on a write
failure, exactly as the C loop does. -/
def acse_responder_auth_value_encoder (sys : csm_sys) (state : csm_asso_state)
    (array : csm_array) : Bool × csm_asso_state × csm_array :=
  let size := state.handshake.ctos.size
  let bytes := (List.range size).map (fun i => sys.get_random_u8 i % 256)
  let p := blen (true, array) (size + 2)
  let p := wr p TAG_CONTEXT_SPECIFIC
  let p := wr p size
  let p := wrSeq p bytes
  (p.1,
   { state with handshake := { state.handshake with
       stoc := { value := bytes, size := size } } }, p.2)

/-- Nested InitiateResponse encoder: reserve two size bytes, write the body
(discriminator, null QoS, version 6, the application-31 conformance block
with the configured bitmask, the server PDU size and the vaa-name), then
backpatch the two reserved bytes with total-minus-one and total-minus-three. -/
def acse_user_info_encoder (sys : csm_sys) (state : csm_asso_state)
    (array : csm_array) : Bool × csm_asso_state × csm_array :=
  let saved_index := array.buf.length
  let p := wrSeq (true, array)
    [0, BER_TYPE_OCTET_STRING, 0,
     AXDR_INITIATE_RESPONSE, 0, 6,
     0x5F, 0x1F, 4, 0,
     state.config.conformance / 65536 % 256,
     state.config.conformance / 256 % 256,
     state.config.conformance % 256,
     CSM_DEF_PDU_SIZE / 256 % 256,
     CSM_DEF_PDU_SIZE % 256]
  let p := if state.ref = LN_REF ∨ state.ref = LN_REF_WITH_CYPHERING then
             wrSeq p [0, 7]
           else
             wrSeq p [0xFA, 0]
  let size := p.2.buf.length - saved_index
  let p := bset p saved_index (size - 1)
  let p := bset p (saved_index + 2) (size - 3)
  (p.1, state, p.2)

open acse_context in
def aare_codec_chain : List csm_asso_codec :=
  [ ⟨CSM_ASSO_PROTO_VER,           ACSE_NONE, none, some acse_proto_version_encoder⟩,
    ⟨CSM_ASSO_APP_CONTEXT_NAME,    ACSE_ANY,  none, some acse_app_context_encoder⟩,
    ⟨BER_TYPE_OBJECT_IDENTIFIER,   ACSE_ANY,  none, some acse_oid_context_encoder⟩,
    ⟨CSM_ASSO_RESULT_FIELD,        ACSE_ANY,  none, some acse_result_encoder⟩,
    ⟨CSM_ASSO_RESULT_SRC_DIAG,     ACSE_ANY,  none, some acse_result_src_diag_encoder⟩,
    ⟨CSM_ASSO_RESP_AP_TITLE,       ACSE_SEC,  none, some acse_resp_system_title_encoder⟩,
    ⟨CSM_ASSO_RESPONDER_ACSE_REQ,  ACSE_SEC,  none, some acse_responder_requirements_encoder⟩,
    ⟨CSM_ASSO_RESP_MECHANISM_NAME, ACSE_SEC,  none, some acse_oid_mechanism_encoder⟩,
    ⟨CSM_ASSO_RESP_AUTH_VALUE,     ACSE_SEC,  none, some acse_responder_auth_value_encoder⟩,
    ⟨CSM_ASSO_USER_INFORMATION,    ACSE_ANY,  none, some acse_user_info_encoder⟩ ]

/- ----------------------- AARE encode engine ----------------------- -/

/-- Iterate the AARE table: an entry is emitted only when its encode
function exists and its requirement is not `ACSE_NONE`; `ACSE_SEC` entries
are skipped unless the negotiated level is high-level GMAC.  A failed tag
write is not checked by the C loop and simply skips the entry; a failing
encode function aborts the chain. -/
def encode_chain (sys : csm_sys) :
    csm_asso_state → csm_array → List csm_asso_codec →
      Bool × csm_asso_state × csm_array
  | s, a, [] => (true, s, a)
  | s, a, c :: rest =>
    match c.insert_func with
    | none => encode_chain sys s a rest
    | some f =>
      if c.context = acse_context.ACSE_NONE then encode_chain sys s a rest
      else if s.auth_level ≠ CSM_AUTH_HIGH_LEVEL_GMAC ∧ c.context = acse_context.ACSE_SEC then
        encode_chain sys s a rest
      else
        match csm_array_write_u8 a c.tag with
        | none => encode_chain sys s a rest
        | some a1 =>
          if (f sys s a1).1 then
            encode_chain sys (f sys s a1).2.1 (f sys s a1).2.2 rest
          else (false, (f sys s a1).2.1, (f sys s a1).2.2)

def csm_asso_encoder (sys : csm_sys) (state : csm_asso_state)
    (array : csm_array) : Bool × csm_asso_state × csm_array :=
  let a0 : csm_array := { array with buf := [] }
  match csm_array_write_u8 a0 CSM_ASSO_AARE with
  | none => (false, state, a0)
  | some a1 =>
    match csm_array_write_u8 a1 0 with
    | none => (false, state, a1)
    | some a2 =>
      let r := encode_chain sys state a2 aare_codec_chain
      if r.1 then
        (true, r.2.1, (csm_array_set r.2.2 1 (r.2.2.buf.length - 2)).getD r.2.2)
      else (false, r.2.1, r.2.2)

/- ----------------------- Association main functions ----------------------- -/

def csm_asso_init (state : csm_asso_state) : csm_asso_state :=
  { state with
    state_cf := CF_IDLE
    auth_level := CSM_AUTH_LOWEST_LEVEL
    ref := NO_REF
    handshake := { state.handshake with result := CSM_ASSO_ERR_NULL } }

def csm_asso_is_granted (sys : csm_sys) (state : csm_asso_state) :
    Bool × csm_asso_state :=
  if state.state_cf = CF_IDLE then
    if state.auth_level = CSM_AUTH_LOWEST_LEVEL then
      (true, { state with
               state_cf := CF_ASSOCIATED
               handshake := { state.handshake with result := CSM_ASSO_ERR_NULL } })
    else if state.auth_level = CSM_AUTH_LOW_LEVEL then
      if sys.test_lls_password state.config.llc.dsap
          (state.handshake.ctos.value.take state.handshake.ctos.size) then
        (true, { state with
                 state_cf := CF_ASSOCIATED
                 handshake := { state.handshake with result := CSM_ASSO_ERR_NULL } })
      else
        (false, { state with handshake := { state.handshake with
                   result := CSM_ASSO_ERR_AUTH_FAILURE } })
    else if state.auth_level = CSM_AUTH_HIGH_LEVEL_GMAC then
      (true, { state with
               state_cf := CF_ASSOCIATION_PENDING
               handshake := { state.handshake with result := CSM_ASSO_AUTH_REQUIRED } })
    else
      (false, { state with handshake := { state.handshake with
                 result := CSM_ASSO_AUTH_UNKNOWN } })
  else (false, state)

/-- Top-level dispatcher: returns the number of reply bytes together with
the updated association state and packet buffer. -/
def csm_asso_execute (sys : csm_sys) (asso : csm_asso_state)
    (packet : csm_array) : Nat × csm_asso_state × csm_array :=
  if asso.state_cf = CF_IDLE then
    match csm_asso_decoder asso packet with
    | (true, s1, p1) =>
      let g := csm_asso_is_granted sys s1
      match csm_asso_encoder sys g.2 p1 with
      | (true, s3, p2) => (p2.buf.length, s3, p2)
      | (false, s3, p2) => (0, s3, p2)
    | (false, s1, p1) => (0, s1, p1)
  else if asso.state_cf = CF_ASSOCIATED then
    match csm_array_get packet 0 with
    | some b =>
      if b = CSM_ASSO_RLRQ then
        let p0 : csm_array := { packet with buf := [] }
        let p1 := (csm_array_write_buff p0 [CSM_ASSO_RLRE, 3, 0x80, 1, 0]).getD p0
        (5, { asso with state_cf := CF_IDLE }, p1)
      else (0, asso, packet)
    | none => (0, asso, packet)
  else (0, asso, packet)

/- ----------------------- Concrete fixtures ----------------------- -/

/-- A system oracle whose password check accepts everything. -/
def sysAcc : csm_sys :=
  { test_lls_password := fun _ _ => true
    get_system_title := [1, 2, 3, 4, 5, 6, 7, 8]
    get_random_u8 := fun _ => 0x33 }

/-- A system oracle whose password check rejects everything. -/
def sysRej : csm_sys :=
  { test_lls_password := fun _ _ => false
    get_system_title := [1, 2, 3, 4, 5, 6, 7, 8]
    get_random_u8 := fun _ => 0x33 }

/-- A freshly initialized association state. -/
def s0 : csm_asso_state :=
  csm_asso_init
    { state_cf := 0
      auth_level := 0
      ref := 0
      client_app_title := []
      handshake :=
        { ctos := ⟨[], 0⟩
          stoc := ⟨[], 0⟩
          proposed_conformance := 0
          client_max_receive_pdu_size := 0
          result := 0 }
      config := { conformance := 0x7E1F, llc := ⟨1⟩ } }

/-- A valid AARQ negotiating the lowest authentication level:
application-context-name (logical-name referencing) and user-information
with an InitiateRequest. -/
def aarqLowest : csm_array :=
  { buf := [0x60, 0x1D,
            0xA1, 0x09, 0x06, 0x07, 0x60, 0x85, 0x74, 0x05, 0x08, 0x01, 0x01,
            0xBE, 0x10, 0x04, 0x0E, 0x01, 0x00, 0x00, 0x00, 0x06,
            0x5F, 0x1F, 0x04, 0x00, 0x00, 0x00, 0x00, 0x04, 0x00]
    cap := 128
    rd_index := 0 }

/-- The same AARQ with the mandatory application-context-name field (tag
`A1`) omitted entirely: the `ACSE_ANY` entry is skipped by tag mismatch. -/
def aarqNoA1 : csm_array :=
  { buf := [0x60, 0x1B,
            0x06, 0x07, 0x60, 0x85, 0x74, 0x05, 0x08, 0x01, 0x01,
            0xBE, 0x10, 0x04, 0x0E, 0x01, 0x00, 0x00, 0x00, 0x06,
            0x5F, 0x1F, 0x04, 0x00, 0x00, 0x00, 0x00, 0x04, 0x00]
    cap := 128
    rd_index := 0 }


/- ----------------------- More fixtures ----------------------- -/

/-- A typical buffered TLV header (an OBJECT IDENTIFIER of length 7), also
used as the ignored scratch-header argument of field decoders. -/
def berW : csm_ber := { tag := ⟨6, 6, 0, true⟩, length := ⟨7⟩ }

def arrE : csm_array := { buf := [], cap := 16, rd_index := 0 }

def arr32 : csm_array := { buf := [], cap := 32, rd_index := 0 }

/-- Association state configured to offer the conformance bitmask
`0xFFFFFF`, with logical-name referencing. -/
def sC1 : csm_asso_state :=
  { s0 with
    ref := LN_REF
    config := { conformance := 0xFFFFFF, llc := ⟨1⟩ } }

/-- User-information octet string of an InitiateRequest whose conformance
block bytes are exactly the ones the AARE encoder emits for the bitmask
`0xFFFFFF` and PDU size 1024. -/
def uiC1 : csm_array :=
  { buf := [0x04, 0x0E, 0x01, 0x00, 0x00, 0x00, 0x06,
            0x5F, 0x1F, 0x04, 0x00, 0xFF, 0xFF, 0xFF, 0x04, 0x00]
    cap := 16
    rd_index := 0 }

/-- Association state negotiating low-level (password) authentication with
a stored 8-byte client-to-server challenge. -/
def sLow : csm_asso_state :=
  { s0 with
    auth_level := CSM_AUTH_LOW_LEVEL
    handshake := { s0.handshake with ctos := ⟨[1, 2, 3, 4, 5, 6, 7, 8], 8⟩ } }

/-- Association state negotiating high-level GMAC authentication. -/
def sGmac : csm_asso_state := { s0 with auth_level := CSM_AUTH_HIGH_LEVEL_GMAC }

/-- An established association. -/
def sAssoc : csm_asso_state := { s0 with state_cf := CF_ASSOCIATED }

/-- A release request packet. -/
def pktRlrq : csm_array := { buf := [0x62, 0x00], cap := 16, rd_index := 0 }

/-- A packet whose leading byte is not the release-request tag. -/
def pktOther : csm_array := { buf := [0x60, 0x1D], cap := 16, rd_index := 0 }

/-- A packet with a malformed outer header: the tag is `0x61`, not AARQ. -/
def badAarq : csm_array := { buf := [0x61, 0x00], cap := 16, rd_index := 0 }

/-- Recognized `(name-selector, id)` pairs of the OID matcher. -/
def recognized_oid_pair (nm id : Nat) : Bool :=
  (nm == APP_CONTEXT_NAME &&
    (id == LN_REF || id == SN_REF || id == LN_REF_WITH_CYPHERING ||
     id == SN_REF_WITH_CYPHERING)) ||
  (nm == SECURITY_MECHANISM_NAME &&
    (id == CSM_AUTH_LOW_LEVEL || id == CSM_AUTH_HIGH_LEVEL_GMAC))

/-- The seven content bytes at the cursor are exactly the fixed organization
prefix followed by a recognized `(name-selector, id)` pair. -/
def good_oid (a : csm_array) : Bool :=
  decide (a.rd_index + 7 ≤ a.buf.length) &&
  ((a.buf.drop a.rd_index).take 5 == cOidHeader) &&
  recognized_oid_pair (a.buf.getD (a.rd_index + 5) 0) (a.buf.getD (a.rd_index + 6) 0)

/-- An OID whose first prefix byte is wrong. -/
def oidBadArr : csm_array :=
  { buf := [0x11, 0x85, 0x74, 0x05, 0x08, 0x01, 0x01], cap := 8, rd_index := 0 }

/-- A fully recognized security-mechanism OID (high-level GMAC). -/
def oidGoodArr : csm_array :=
  { buf := [0x60, 0x85, 0x74, 0x05, 0x08, 0x02, 0x05], cap := 8, rd_index := 0 }

/-- User-information octet string of an InitiateRequest with dedicated-key
marker byte `m`, unused-bits byte `x`, leading conformance bytes `y`, `z`
and PDU bytes `p`, `q`. -/
def ui_req_array (m x y z p q : Nat) : csm_array :=
  { buf := [0x04, 0x0E, 0x01, m, 0x00, 0x00, 0x06,
            0x5F, 0x1F, 0x04, x, y, z, p, q, 0x00]
    cap := 16
    rd_index := 0 }

/-- A user-information field with a non-null dedicated-key marker. -/
def uiMarked : csm_array := ui_req_array 0x55 0 0xAA 0xBB 0x04 0x00

/-- A user-information field with a non-null dedicated-key marker and a
non-null byte where response-allowed is expected. -/
def uiBadRA : csm_array :=
  { buf := [0x04, 0x0E, 0x01, 0x55, 0x01, 0x00, 0x06,
            0x5F, 0x1F, 0x04, 0x00, 0x00, 0x00, 0x00, 0x04, 0x00]
    cap := 16
    rd_index := 0 }

/-- Result of decoding the valid lowest-level AARQ. -/
def c8dec : Bool × csm_asso_state × csm_array := csm_asso_decoder s0 aarqLowest

/-- Result of encoding an AARE from the fresh state. -/
def c6out : Bool × csm_asso_state × csm_array := csm_asso_encoder sysAcc s0 aarqLowest

/-- Result of running the nested InitiateResponse encoder alone. -/
def c6ui : Bool × csm_asso_state × csm_array := acse_user_info_encoder sysAcc sC1 arr32

/- ----------------------- Helper lemmas ----------------------- -/

theorem csm_array_write_u8_some {a : csm_array} {b : Nat} {a1 : csm_array}
    (h : csm_array_write_u8 a b = some a1) :
    a1.buf = a.buf ++ [b % 256] ∧ a1.cap = a.cap ∧ a1.rd_index = a.rd_index := by
  unfold csm_array_write_u8 at h
  split at h
  · cases h; exact ⟨rfl, rfl, rfl⟩
  · cases h

theorem csm_ber_write_len_some {a : csm_array} {n : Nat} {a1 : csm_array}
    (h : csm_ber_write_len a n = some a1) :
    a1.buf = a.buf ++ [n % 256] ∧ a1.cap = a.cap ∧ a1.rd_index = a.rd_index := by
  unfold csm_ber_write_len at h
  split at h
  · exact csm_array_write_u8_some h
  · cases h

theorem csm_ber_write_integer_some {a : csm_array} {v : Nat} {a1 : csm_array}
    (h : csm_ber_write_integer a v = some a1) :
    a1.buf = a.buf ++ [3, 2, 1, v % 256] ∧ a1.cap = a.cap ∧ a1.rd_index = a.rd_index := by
  unfold csm_ber_write_integer at h
  cases h3 : csm_ber_write_len a 3 with
  | none => simp only [h3] at h; exact Option.noConfusion h
  | some b3 =>
    simp only [h3] at h
    cases h2 : csm_array_write_u8 b3 BER_TYPE_INTEGER with
    | none => simp only [h2] at h; exact Option.noConfusion h
    | some b2 =>
      simp only [h2] at h
      cases h1 : csm_ber_write_len b2 1 with
      | none => simp only [h1] at h; exact Option.noConfusion h
      | some b1 =>
        simp only [h1] at h
        obtain ⟨e3, e3c, e3r⟩ := csm_ber_write_len_some h3
        obtain ⟨e2, e2c, e2r⟩ := csm_array_write_u8_some h2
        obtain ⟨e1, e1c, e1r⟩ := csm_ber_write_len_some h1
        obtain ⟨e0, e0c, e0r⟩ := csm_array_write_u8_some h
        refine ⟨?_, by omega, by omega⟩
        rw [e0, e1, e2, e3]
        simp [BER_TYPE_INTEGER]

theorem csm_array_set_some {a : csm_array} {i v : Nat} {a1 : csm_array}
    (h : csm_array_set a i v = some a1) :
    a1.buf = a.buf.set i (v % 256) ∧ i < a.buf.length ∧
      a1.cap = a.cap ∧ a1.rd_index = a.rd_index := by
  unfold csm_array_set at h
  split at h
  · cases h; exact ⟨rfl, by assumption, rfl, rfl⟩
  · cases h

theorem csm_array_read_u8_some {a : csm_array} {v : Nat} {a1 : csm_array}
    (h : csm_array_read_u8 a = some (v, a1)) :
    a1.buf = a.buf ∧ a1.cap = a.cap ∧ a1.rd_index = a.rd_index + 1 := by
  unfold csm_array_read_u8 at h
  split at h
  · cases h; exact ⟨rfl, rfl, rfl⟩
  · cases h

theorem csm_ber_decode_some_buf {a : csm_array} {b : csm_ber} {a1 : csm_array}
    (h : csm_ber_decode a = some (b, a1)) : a1.buf = a.buf ∧ a1.cap = a.cap := by
  unfold csm_ber_decode at h
  cases h1 : csm_array_read_u8 a with
  | none => simp only [h1] at h; exact Option.noConfusion h
  | some p =>
    obtain ⟨t, x1⟩ := p
    obtain ⟨e1, e1c, _⟩ := csm_array_read_u8_some h1
    simp only [h1] at h
    by_cases hid : t % 32 = 31
    · simp only [if_pos hid] at h
      cases h2 : csm_array_read_u8 x1 with
      | none => simp only [h2] at h; exact Option.noConfusion h
      | some q =>
        obtain ⟨e, x2⟩ := q
        obtain ⟨e2, e2c, _⟩ := csm_array_read_u8_some h2
        simp only [h2] at h
        cases h3 : csm_array_read_u8 x2 with
        | none => simp only [h3] at h; exact Option.noConfusion h
        | some r =>
          obtain ⟨l, x3⟩ := r
          obtain ⟨e3, e3c, _⟩ := csm_array_read_u8_some h3
          simp only [h3] at h
          split at h
          · cases h; exact ⟨by rw [e3, e2, e1], by rw [e3c, e2c, e1c]⟩
          · cases h
    · simp only [if_neg hid] at h
      cases h2 : csm_array_read_u8 x1 with
      | none => simp only [h2] at h; exact Option.noConfusion h
      | some q =>
        obtain ⟨l, x2⟩ := q
        obtain ⟨e2, e2c, _⟩ := csm_array_read_u8_some h2
        simp only [h2] at h
        split at h
        · cases h; exact ⟨by rw [e2, e1], by rw [e2c, e1c]⟩
        · cases h

theorem wr_false (a : csm_array) (b : Nat) : wr (false, a) b = (false, a) := rfl

theorem wr_buf_le (p : Bool × csm_array) (b : Nat) :
    p.2.buf.length ≤ (wr p b).2.buf.length := by
  unfold wr
  split
  · split
    · next a h => obtain ⟨e, _, _⟩ := csm_array_write_u8_some h; simp [e]
    · exact le_refl _
  · exact le_refl _

theorem wrSeq_nil (p : Bool × csm_array) : wrSeq p [] = p := rfl

theorem wrSeq_cons (p : Bool × csm_array) (b : Nat) (bs : List Nat) :
    wrSeq p (b :: bs) = wrSeq (wr p b) bs := rfl

theorem wrSeq_false (a : csm_array) (bs : List Nat) :
    wrSeq (false, a) bs = (false, a) := by
  induction bs with
  | nil => rfl
  | cons b bs ih => rw [wrSeq_cons, wr_false, ih]

theorem wrSeq_buf_le (p : Bool × csm_array) (bs : List Nat) :
    p.2.buf.length ≤ (wrSeq p bs).2.buf.length := by
  induction bs generalizing p with
  | nil => exact le_refl _
  | cons b bs ih =>
    rw [wrSeq_cons]
    exact le_trans (wr_buf_le p b) (ih (wr p b))

theorem wrSeq_true_buf {a : csm_array} {bs : List Nat}
    (h : (wrSeq (true, a) bs).1 = true) :
    (wrSeq (true, a) bs).2.buf = a.buf ++ bs.map (· % 256) ∧
      (wrSeq (true, a) bs).2.cap = a.cap ∧
      (wrSeq (true, a) bs).2.rd_index = a.rd_index := by
  induction bs generalizing a with
  | nil => simp [wrSeq_nil]
  | cons b bs ih =>
    rw [wrSeq_cons] at h ⊢
    have hw : wr (true, a) b =
        match csm_array_write_u8 a b with
        | some x => (true, x)
        | none => (false, a) := rfl
    cases hu : csm_array_write_u8 a b with
    | none =>
      rw [hw, hu] at h ⊢
      rw [wrSeq_false] at h
      cases h
    | some a1 =>
      rw [hw, hu] at h ⊢
      obtain ⟨e, ec, er⟩ := csm_array_write_u8_some hu
      obtain ⟨ih1, ih2, ih3⟩ := ih h
      refine ⟨?_, by rw [ih2, ec], by rw [ih3, er]⟩
      rw [ih1, e]
      simp

theorem blen_buf_le (p : Bool × csm_array) (n : Nat) :
    p.2.buf.length ≤ (blen p n).2.buf.length := by
  unfold blen
  split
  · split
    · next a h => obtain ⟨e, _, _⟩ := csm_ber_write_len_some h; simp [e]
    · exact le_refl _
  · exact le_refl _

theorem bbuf_buf_le (p : Bool × csm_array) (bs : List Nat) :
    p.2.buf.length ≤ (bbuf p bs).2.buf.length := by
  unfold bbuf
  split
  · split
    · next a h =>
      unfold csm_array_write_buff at h
      split at h
      · cases h; simp
      · cases h
    · exact le_refl _
  · exact le_refl _

theorem bset_buf_len (p : Bool × csm_array) (i v : Nat) :
    (bset p i v).2.buf.length = p.2.buf.length := by
  unfold bset
  split
  · split
    · next a h => obtain ⟨e, _, _, _⟩ := csm_array_set_some h; simp [e]
    · rfl
  · rfl

theorem bset_false (a : csm_array) (i v : Nat) : bset (false, a) i v = (false, a) := rfl

theorem acse_proto_version_encoder_mono (sys : csm_sys) (s : csm_asso_state)
    (a : csm_array) :
    a.buf.length ≤ (acse_proto_version_encoder sys s a).2.2.buf.length := by
  unfold acse_proto_version_encoder
  refine le_trans ?_ (wr_buf_le _ 0x80)
  refine le_trans ?_ (wr_buf_le _ 7)
  exact blen_buf_le (true, a) 2

theorem acse_app_context_encoder_mono (sys : csm_sys) (s : csm_asso_state)
    (a : csm_array) :
    a.buf.length ≤ (acse_app_context_encoder sys s a).2.2.buf.length := by
  unfold acse_app_context_encoder
  cases h : csm_ber_write_len a 9 with
  | none => simp [h]
  | some a1 =>
    obtain ⟨e, _, _⟩ := csm_ber_write_len_some h
    simp [h, e]

theorem acse_oid_encoder_mono (a : csm_array) (nm id : Nat) :
    a.buf.length ≤ (acse_oid_encoder a nm id).2.buf.length := by
  unfold acse_oid_encoder
  refine le_trans ?_ (wr_buf_le _ id)
  refine le_trans ?_ (wr_buf_le _ nm)
  refine le_trans ?_ (bbuf_buf_le _ cOidHeader)
  exact blen_buf_le (true, a) 7

theorem acse_oid_context_encoder_mono (sys : csm_sys) (s : csm_asso_state)
    (a : csm_array) :
    a.buf.length ≤ (acse_oid_context_encoder sys s a).2.2.buf.length := by
  unfold acse_oid_context_encoder
  exact acse_oid_encoder_mono a APP_CONTEXT_NAME s.ref

theorem acse_result_encoder_mono (sys : csm_sys) (s : csm_asso_state)
    (a : csm_array) :
    a.buf.length ≤ (acse_result_encoder sys s a).2.2.buf.length := by
  unfold acse_result_encoder
  cases h : csm_ber_write_integer a (if s.state_cf = CF_IDLE then 1 else 0) with
  | none => simp [h]
  | some a1 =>
    obtain ⟨e, _, _⟩ := csm_ber_write_integer_some h
    simp [h, e]

theorem acse_result_src_diag_encoder_mono (sys : csm_sys) (s : csm_asso_state)
    (a : csm_array) :
    a.buf.length ≤ (acse_result_src_diag_encoder sys s a).2.2.buf.length := by
  unfold acse_result_src_diag_encoder
  cases h5 : csm_ber_write_len a 5 with
  | none => simp [h5]
  | some a1 =>
    obtain ⟨e5, _, _⟩ := csm_ber_write_len_some h5
    cases hu : csm_array_write_u8 a1 CSM_ASSO_RESULT_SERVICE_USER with
    | none => simp [h5, hu, e5]
    | some a2 =>
      obtain ⟨eu, _, _⟩ := csm_array_write_u8_some hu
      cases hi : csm_ber_write_integer a2 s.handshake.result with
      | none => simp [h5, hu, hi, eu, e5]
      | some a3 =>
        obtain ⟨ei, _, _⟩ := csm_ber_write_integer_some hi
        simp [h5, hu, hi, ei, eu, e5]

theorem acse_resp_system_title_encoder_mono (sys : csm_sys) (s : csm_asso_state)
    (a : csm_array) :
    a.buf.length ≤ (acse_resp_system_title_encoder sys s a).2.2.buf.length := by
  unfold acse_resp_system_title_encoder
  refine le_trans ?_ (bbuf_buf_le _ _)
  refine le_trans ?_ (wr_buf_le _ CSM_DEF_APP_TITLE_SIZE)
  refine le_trans ?_ (wr_buf_le _ BER_TYPE_OCTET_STRING)
  exact blen_buf_le (true, a) (CSM_DEF_APP_TITLE_SIZE + 2)

theorem acse_responder_requirements_encoder_mono (sys : csm_sys)
    (s : csm_asso_state) (a : csm_array) :
    a.buf.length ≤ (acse_responder_requirements_encoder sys s a).2.2.buf.length := by
  unfold acse_responder_requirements_encoder
  refine le_trans ?_ (wr_buf_le _ 0x80)
  refine le_trans ?_ (wr_buf_le _ 7)
  exact blen_buf_le (true, a) 2

theorem acse_oid_mechanism_encoder_mono (sys : csm_sys) (s : csm_asso_state)
    (a : csm_array) :
    a.buf.length ≤ (acse_oid_mechanism_encoder sys s a).2.2.buf.length := by
  unfold acse_oid_mechanism_encoder
  exact acse_oid_encoder_mono a SECURITY_MECHANISM_NAME s.auth_level

theorem acse_responder_auth_value_encoder_mono (sys : csm_sys)
    (s : csm_asso_state) (a : csm_array) :
    a.buf.length ≤ (acse_responder_auth_value_encoder sys s a).2.2.buf.length := by
  unfold acse_responder_auth_value_encoder
  refine le_trans ?_ (wrSeq_buf_le _ _)
  refine le_trans ?_ (wr_buf_le _ s.handshake.ctos.size)
  refine le_trans ?_ (wr_buf_le _ TAG_CONTEXT_SPECIFIC)
  exact blen_buf_le (true, a) (s.handshake.ctos.size + 2)

theorem acse_user_info_encoder_mono (sys : csm_sys) (s : csm_asso_state)
    (a : csm_array) :
    a.buf.length ≤ (acse_user_info_encoder sys s a).2.2.buf.length := by
  unfold acse_user_info_encoder
  rw [bset_buf_len, bset_buf_len]
  split
  · refine le_trans ?_ (wrSeq_buf_le _ [0, 7])
    exact wrSeq_buf_le (true, a) _
  · refine le_trans ?_ (wrSeq_buf_le _ [0xFA, 0])
    exact wrSeq_buf_le (true, a) _

/-- Every encode function of the AARE table only appends to the buffer. -/
theorem aare_insert_funcs_mono :
    ∀ c ∈ aare_codec_chain, ∀ f, c.insert_func = some f →
      ∀ sys s a, a.buf.length ≤ (f sys s a).2.2.buf.length := by
  intro c hc f hf sys s a
  fin_cases hc
  all_goals cases hf
  · exact acse_proto_version_encoder_mono sys s a
  · exact acse_app_context_encoder_mono sys s a
  · exact acse_oid_context_encoder_mono sys s a
  · exact acse_result_encoder_mono sys s a
  · exact acse_result_src_diag_encoder_mono sys s a
  · exact acse_resp_system_title_encoder_mono sys s a
  · exact acse_responder_requirements_encoder_mono sys s a
  · exact acse_oid_mechanism_encoder_mono sys s a
  · exact acse_responder_auth_value_encoder_mono sys s a
  · exact acse_user_info_encoder_mono sys s a

theorem encode_chain_mono (sys : csm_sys) (cs : List csm_asso_codec)
    (hmono : ∀ c ∈ cs, ∀ f, c.insert_func = some f →
      ∀ sys2 s2 a2, a2.buf.length ≤ (f sys2 s2 a2).2.2.buf.length) :
    ∀ s a, a.buf.length ≤ (encode_chain sys s a cs).2.2.buf.length := by
  induction cs with
  | nil => intro s a; exact le_refl _
  | cons c rest ih =>
    intro s a
    have hrest : ∀ c2 ∈ rest, ∀ f, c2.insert_func = some f →
        ∀ sys2 s2 a2, a2.buf.length ≤ (f sys2 s2 a2).2.2.buf.length := by
      intro c2 h2; exact hmono c2 (List.mem_cons_of_mem c h2)
    unfold encode_chain
    cases hfun : c.insert_func with
    | none => simp only [hfun]; exact ih hrest s a
    | some f =>
      simp only [hfun]
      split
      · exact ih hrest s a
      · split
        · exact ih hrest s a
        · cases hw : csm_array_write_u8 a c.tag with
          | none => simp only [hw]; exact ih hrest s a
          | some a1 =>
            simp only [hw]
            obtain ⟨ew, _, _⟩ := csm_array_write_u8_some hw
            have h1 : a.buf.length ≤ a1.buf.length := by simp [ew]
            have h2 : a1.buf.length ≤ (f sys s a1).2.2.buf.length :=
              hmono c (List.mem_cons_self c rest) f hfun sys s a1
            split
            · exact le_trans h1 (le_trans h2 (ih hrest _ _))
            · exact le_trans h1 h2

/- ----------------------- Claim theorems ----------------------- -/

/-- C2: in the AARQ decode loop, when the buffered TLV header's tag differs
from the current table entry's tag, no header or field bytes are consumed
and the engine merely advances to the next entry, re-comparing the same
buffered header — uniformly for every entry, whatever its requirement; and
an AARQ in which the required application-context entry's tag never appears
(`aarqNoA1`) still decodes successfully. -/
theorem aarq_decode_skips_on_tag_mismatch
    (state : csm_asso_state) (ber : csm_ber) (array : csm_array)
    (codec : csm_asso_codec) (rest : List csm_asso_codec)
    (h : ber.tag.tag ≠ codec.tag) :
    asso_decode_loop state ber array (codec :: rest) =
      asso_decode_loop state ber array rest ∧
    (csm_asso_decoder s0 aarqNoA1).1 = true := by
  constructor
  · show (if ber.tag.tag = codec.tag then _ else asso_decode_loop state ber array rest) = _
    rw [if_neg h]
  · decide

theorem aarq_decode_skips_on_tag_mismatch_witness :
    (6 : Nat) ≠ CSM_ASSO_PROTO_VER ∧
    asso_decode_loop s0 berW aarqNoA1 aarq_codec_chain =
      asso_decode_loop s0 berW aarqNoA1 aarq_codec_chain.tail ∧
    (csm_asso_decoder s0 aarqNoA1).1 = true := by
  have h := aarq_decode_skips_on_tag_mismatch s0 berW aarqNoA1
    ⟨CSM_ASSO_PROTO_VER, acse_context.ACSE_NONE, some acse_proto_version_decoder, none⟩
    aarq_codec_chain.tail (by decide)
  exact ⟨by decide, h.1, h.2⟩

/-- C1 (refuted; the code contradicts the InitiateRequest grammar quoted in
its own comment): the user-information decoder assigns the just-checked
unused-bits byte as the conformance MSB instead of reading a fresh byte, so
decoding the conformance block emitted by the AARE encoder for the bitmask
`0xFFFFFF` stores `0x00FFFF` (the bitmask shifted right by 8), and the
"max-PDU-size" is assembled from the bitmask LSB and the true PDU MSB,
giving `0xFF04` instead of `0x0400`. -/
theorem conformance_block_decode_drops_msb :
    (acse_user_info_encoder sysAcc sC1 arr32).1 = true ∧
    ((acse_user_info_encoder sysAcc sC1 arr32).2.2.buf.drop 6).take 9 =
      [0x5F, 0x1F, 0x04, 0x00, 0xFF, 0xFF, 0xFF, 0x04, 0x00] ∧
    uiC1.buf.drop 7 = [0x5F, 0x1F, 0x04, 0x00, 0xFF, 0xFF, 0xFF, 0x04, 0x00] ∧
    (acse_user_info_decoder s0 berW uiC1).1 = true ∧
    sC1.config.conformance = 0xFFFFFF ∧
    CSM_DEF_PDU_SIZE = 0x0400 ∧
    (acse_user_info_decoder s0 berW uiC1).2.1.handshake.proposed_conformance = 0xFFFF ∧
    (acse_user_info_decoder s0 berW uiC1).2.1.handshake.client_max_receive_pdu_size
      = 0xFF04 := by
  decide

/-- C4: with an established association, a leading release-request tag makes
the dispatcher overwrite the packet with the fixed 5-byte release response,
return to IDLE and report 5 reply bytes; any other leading byte yields zero
reply bytes and leaves the state and packet untouched. -/
theorem release_request_while_associated
    (sys : csm_sys) (asso : csm_asso_state) (packet : csm_array) (b : Nat)
    (hcf : asso.state_cf = CF_ASSOCIATED)
    (hget : csm_array_get packet 0 = some b) :
    (b = CSM_ASSO_RLRQ → 5 ≤ packet.cap →
      csm_asso_execute sys asso packet =
        (5, { asso with state_cf := CF_IDLE },
         { packet with buf := [0x63, 0x03, 0x80, 0x01, 0x00] })) ∧
    (b ≠ CSM_ASSO_RLRQ → csm_asso_execute sys asso packet = (0, asso, packet)) := by
  have hne : asso.state_cf ≠ CF_IDLE := by
    rw [hcf]; decide
  constructor
  · intro hb hcap
    unfold csm_asso_execute
    rw [if_neg hne, if_pos hcf, hget]
    simp only [hb, if_pos rfl]
    unfold csm_array_write_buff
    have hlen : (({ packet with buf := [] } : csm_array)).buf.length +
        ([CSM_ASSO_RLRE, 3, 0x80, 1, 0] : List Nat).length ≤
        (({ packet with buf := [] } : csm_array)).cap := by
      simpa using hcap
    rw [if_pos hlen]
    simp [CSM_ASSO_RLRE]
  · intro hb
    unfold csm_asso_execute
    rw [if_neg hne, if_pos hcf, hget]
    simp [hb]

theorem release_request_while_associated_witness :
    csm_asso_execute sysAcc sAssoc pktRlrq =
      (5, { sAssoc with state_cf := CF_IDLE },
       { pktRlrq with buf := [0x63, 0x03, 0x80, 0x01, 0x00] }) ∧
    csm_asso_execute sysAcc sAssoc pktOther = (0, sAssoc, pktOther) := by
  have h1 := release_request_while_associated sysAcc sAssoc pktRlrq 0x62
    (by decide) (by decide)
  have h2 := release_request_while_associated sysAcc sAssoc pktOther 0x60
    (by decide) (by decide)
  exact ⟨h1.1 rfl (by decide), h2.2 (by decide)⟩

set_option maxRecDepth 8000 in
/-- C10: the user-information decoder consumes exactly one byte for the
dedicated-key marker and ignores its value: the result flag, the resulting
state and the final read position are identical whether the marker byte is
`m` or null, a non-null marker still decodes successfully (`uiMarked`), and
the byte immediately after the marker is interpreted as response-allowed —
a non-null byte there fails the decode (`uiBadRA`). -/
theorem dedicated_key_marker_consumes_one_byte
    (s : csm_asso_state) (ber : csm_ber) (m y z p q : Nat) :
    (acse_user_info_decoder s ber (ui_req_array m 0 y z p q)).1 =
      (acse_user_info_decoder s ber (ui_req_array 0 0 y z p q)).1 ∧
    (acse_user_info_decoder s ber (ui_req_array m 0 y z p q)).2.1 =
      (acse_user_info_decoder s ber (ui_req_array 0 0 y z p q)).2.1 ∧
    (acse_user_info_decoder s ber (ui_req_array m 0 y z p q)).2.2.rd_index =
      (acse_user_info_decoder s ber (ui_req_array 0 0 y z p q)).2.2.rd_index ∧
    (acse_user_info_decoder s0 berW uiMarked).1 = true ∧
    (acse_user_info_decoder s0 berW uiBadRA).1 = false := by
  refine ⟨?_, ?_, ?_, by decide, by decide⟩ <;> with_unfolding_all rfl

theorem acse_result_encoder_writes (sys : csm_sys) (s : csm_asso_state)
    (a : csm_array) (h : (acse_result_encoder sys s a).1 = true) :
    (acse_result_encoder sys s a).2.2.buf =
      a.buf ++ [3, 2, 1, if s.state_cf = CF_IDLE then 1 else 0] := by
  unfold acse_result_encoder at h ⊢
  cases hi : csm_ber_write_integer a (if s.state_cf = CF_IDLE then 1 else 0) with
  | none => simp only [hi] at h; simp at h
  | some a1 =>
    simp only [hi]
    obtain ⟨e, _, _⟩ := csm_ber_write_integer_some hi
    have hm : ((if s.state_cf = CF_IDLE then (1 : Nat) else 0) % 256) =
        (if s.state_cf = CF_IDLE then (1 : Nat) else 0) := by
      split <;> norm_num
    rw [e, hm]

theorem acse_result_src_diag_encoder_writes (sys : csm_sys)
    (s : csm_asso_state) (a : csm_array)
    (h : (acse_result_src_diag_encoder sys s a).1 = true) :
    (acse_result_src_diag_encoder sys s a).2.2.buf =
      a.buf ++ [5, 0xA1, 3, 2, 1, s.handshake.result % 256] := by
  unfold acse_result_src_diag_encoder at h ⊢
  cases h5 : csm_ber_write_len a 5 with
  | none => simp only [h5] at h; simp at h
  | some a1 =>
    simp only [h5] at h ⊢
    cases hu : csm_array_write_u8 a1 CSM_ASSO_RESULT_SERVICE_USER with
    | none => simp only [hu] at h; simp at h
    | some a2 =>
      simp only [hu] at h ⊢
      cases hi : csm_ber_write_integer a2 s.handshake.result with
      | none => simp only [hi] at h; simp at h
      | some a3 =>
        simp only [hi]
        obtain ⟨e5, _, _⟩ := csm_ber_write_len_some h5
        obtain ⟨eu, _, _⟩ := csm_array_write_u8_some hu
        obtain ⟨ei, _, _⟩ := csm_ber_write_integer_some hi
        rw [ei, eu, e5]
        simp [CSM_ASSO_RESULT_SERVICE_USER]

/-- C3: for a low-level (password) association attempt from IDLE, an
accepting external password check on the stored client-to-server challenge
for the configured destination access point yields ASSOCIATED with
handshake result NULL; a rejecting check leaves the state IDLE with result
AUTH_FAILURE, and the association-result field of the AARE then carries the
value byte 1 (rejected-permanent). -/
theorem lls_password_decides_low_level_auth
    (sys : csm_sys) (state : csm_asso_state)
    (hcf : state.state_cf = CF_IDLE)
    (hauth : state.auth_level = CSM_AUTH_LOW_LEVEL) :
    (sys.test_lls_password state.config.llc.dsap
        (state.handshake.ctos.value.take state.handshake.ctos.size) = true →
      csm_asso_is_granted sys state =
        (true, { state with
                 state_cf := CF_ASSOCIATED
                 handshake := { state.handshake with result := CSM_ASSO_ERR_NULL } })) ∧
    (sys.test_lls_password state.config.llc.dsap
        (state.handshake.ctos.value.take state.handshake.ctos.size) = false →
      csm_asso_is_granted sys state =
        (false, { state with handshake := { state.handshake with
                   result := CSM_ASSO_ERR_AUTH_FAILURE } }) ∧
      (∀ a : csm_array,
        (acse_result_encoder sys { state with handshake := { state.handshake with
            result := CSM_ASSO_ERR_AUTH_FAILURE } } a).1 = true →
        (acse_result_encoder sys { state with handshake := { state.handshake with
            result := CSM_ASSO_ERR_AUTH_FAILURE } } a).2.2.buf =
          a.buf ++ [3, 2, 1, 1])) := by
  have hne : state.auth_level ≠ CSM_AUTH_LOWEST_LEVEL := by
    rw [hauth]; decide
  constructor
  · intro hpw
    unfold csm_asso_is_granted
    rw [if_pos hcf, if_neg hne, if_pos hauth, if_pos hpw]
  · intro hpw
    have hpw2 : ¬ (sys.test_lls_password state.config.llc.dsap
        (state.handshake.ctos.value.take state.handshake.ctos.size) = true) := by
      rw [hpw]; decide
    constructor
    · unfold csm_asso_is_granted
      rw [if_pos hcf, if_neg hne, if_pos hauth, if_neg hpw2]
    · intro a h
      have e := acse_result_encoder_writes sys _ a h
      simpa [hcf] using e

theorem lls_password_decides_low_level_auth_witness :
    csm_asso_is_granted sysAcc sLow =
      (true, { sLow with
               state_cf := CF_ASSOCIATED
               handshake := { sLow.handshake with result := CSM_ASSO_ERR_NULL } }) ∧
    csm_asso_is_granted sysRej sLow =
      (false, { sLow with handshake := { sLow.handshake with
                 result := CSM_ASSO_ERR_AUTH_FAILURE } }) ∧
    (acse_result_encoder sysRej { sLow with handshake := { sLow.handshake with
        result := CSM_ASSO_ERR_AUTH_FAILURE } } arrE).2.2.buf =
      arrE.buf ++ [3, 2, 1, 1] := by
  have h1 := lls_password_decides_low_level_auth sysAcc sLow (by decide) (by decide)
  have h2 := lls_password_decides_low_level_auth sysRej sLow (by decide) (by decide)
  exact ⟨h1.1 rfl, (h2.2 rfl).1, (h2.2 rfl).2 arrE (by decide)⟩

/-- C5: a high-level GMAC association attempt from IDLE is provisionally
granted: the state becomes ASSOCIATION_PENDING with handshake result
AUTH_REQUIRED, the association-result field of the AARE carries the value
byte 0 (accepted) and the result-source-diagnostic carries AUTH_REQUIRED. -/
theorem hls_gmac_defers_association
    (sys : csm_sys) (state : csm_asso_state)
    (hcf : state.state_cf = CF_IDLE)
    (hauth : state.auth_level = CSM_AUTH_HIGH_LEVEL_GMAC) :
    csm_asso_is_granted sys state =
      (true, { state with
               state_cf := CF_ASSOCIATION_PENDING
               handshake := { state.handshake with result := CSM_ASSO_AUTH_REQUIRED } }) ∧
    (∀ a : csm_array,
      (acse_result_encoder sys { state with
          state_cf := CF_ASSOCIATION_PENDING
          handshake := { state.handshake with result := CSM_ASSO_AUTH_REQUIRED } } a).1
        = true →
      (acse_result_encoder sys { state with
          state_cf := CF_ASSOCIATION_PENDING
          handshake := { state.handshake with result := CSM_ASSO_AUTH_REQUIRED } } a).2.2.buf
        = a.buf ++ [3, 2, 1, 0]) ∧
    (∀ a : csm_array,
      (acse_result_src_diag_encoder sys { state with
          state_cf := CF_ASSOCIATION_PENDING
          handshake := { state.handshake with result := CSM_ASSO_AUTH_REQUIRED } } a).1
        = true →
      (acse_result_src_diag_encoder sys { state with
          state_cf := CF_ASSOCIATION_PENDING
          handshake := { state.handshake with result := CSM_ASSO_AUTH_REQUIRED } } a).2.2.buf
        = a.buf ++ [5, 0xA1, 3, 2, 1, CSM_ASSO_AUTH_REQUIRED]) := by
  have hne0 : state.auth_level ≠ CSM_AUTH_LOWEST_LEVEL := by rw [hauth]; decide
  have hne1 : state.auth_level ≠ CSM_AUTH_LOW_LEVEL := by rw [hauth]; decide
  refine ⟨?_, ?_, ?_⟩
  · unfold csm_asso_is_granted
    rw [if_pos hcf, if_neg hne0, if_neg hne1, if_pos hauth]
  · intro a h
    have e := acse_result_encoder_writes sys _ a h
    simpa [CF_ASSOCIATION_PENDING, CF_IDLE] using e
  · intro a h
    have e := acse_result_src_diag_encoder_writes sys _ a h
    simpa [CSM_ASSO_AUTH_REQUIRED] using e

theorem hls_gmac_defers_association_witness :
    csm_asso_is_granted sysAcc sGmac =
      (true, { sGmac with
               state_cf := CF_ASSOCIATION_PENDING
               handshake := { sGmac.handshake with result := CSM_ASSO_AUTH_REQUIRED } }) ∧
    (acse_result_encoder sysAcc { sGmac with
        state_cf := CF_ASSOCIATION_PENDING
        handshake := { sGmac.handshake with result := CSM_ASSO_AUTH_REQUIRED } } arrE).2.2.buf
      = arrE.buf ++ [3, 2, 1, 0] ∧
    (acse_result_src_diag_encoder sysAcc { sGmac with
        state_cf := CF_ASSOCIATION_PENDING
        handshake := { sGmac.handshake with result := CSM_ASSO_AUTH_REQUIRED } } arrE).2.2.buf
      = arrE.buf ++ [5, 0xA1, 3, 2, 1, CSM_ASSO_AUTH_REQUIRED] := by
  have h := hls_gmac_defers_association sysAcc sGmac (by decide) (by decide)
  exact ⟨h.1, h.2.1 arrE (by decide), h.2.2 arrE (by decide)⟩

/-- C8: an AARQ that decodes successfully and negotiates the lowest
authentication level is granted from IDLE: the state becomes ASSOCIATED
with handshake result NULL, and the association-result field of the AARE
carries the value byte 0 (accepted). -/
theorem aarq_lowest_grants_associated
    (sys : csm_sys) (s : csm_asso_state) (a : csm_array)
    (s1 : csm_asso_state) (a1 : csm_array)
    (hdec : csm_asso_decoder s a = (true, s1, a1))
    (hcf : s1.state_cf = CF_IDLE)
    (hauth : s1.auth_level = CSM_AUTH_LOWEST_LEVEL) :
    csm_asso_is_granted sys s1 =
      (true, { s1 with
               state_cf := CF_ASSOCIATED
               handshake := { s1.handshake with result := CSM_ASSO_ERR_NULL } }) ∧
    (∀ arr : csm_array,
      (acse_result_encoder sys { s1 with
          state_cf := CF_ASSOCIATED
          handshake := { s1.handshake with result := CSM_ASSO_ERR_NULL } } arr).1 = true →
      (acse_result_encoder sys { s1 with
          state_cf := CF_ASSOCIATED
          handshake := { s1.handshake with result := CSM_ASSO_ERR_NULL } } arr).2.2.buf
        = arr.buf ++ [3, 2, 1, 0]) := by
  constructor
  · unfold csm_asso_is_granted
    rw [if_pos hcf, if_pos hauth]
  · intro arr h
    have e := acse_result_encoder_writes sys _ arr h
    simpa [CF_ASSOCIATED, CF_IDLE] using e

theorem aarq_lowest_grants_associated_witness :
    csm_asso_is_granted sysAcc c8dec.2.1 =
      (true, { c8dec.2.1 with
               state_cf := CF_ASSOCIATED
               handshake := { c8dec.2.1.handshake with result := CSM_ASSO_ERR_NULL } }) ∧
    (acse_result_encoder sysAcc { c8dec.2.1 with
        state_cf := CF_ASSOCIATED
        handshake := { c8dec.2.1.handshake with result := CSM_ASSO_ERR_NULL } } arrE).2.2.buf
      = arrE.buf ++ [3, 2, 1, 0] := by
  have h := aarq_lowest_grants_associated sysAcc s0 aarqLowest c8dec.2.1 c8dec.2.2
    (by decide) (by decide) (by decide)
  exact ⟨h.1, h.2 arrE (by decide)⟩

/-- C7: an inbound packet processed from IDLE whose outer header is
malformed — the header does not decode, the outer tag is not the AARQ tag,
or the declared length does not equal the bytes remaining after the header
— fails the whole decode; the dispatcher then returns 0 reply bytes, the
state is unchanged and no AARE is written into the packet buffer. -/
theorem malformed_outer_header_rejects_aarq
    (sys : csm_sys) (state : csm_asso_state) (array : csm_array)
    (hcf : state.state_cf = CF_IDLE)
    (hbad : csm_ber_decode array = none ∨
      ∃ ber a1, csm_ber_decode array = some (ber, a1) ∧
        (ber.tag.tag ≠ CSM_ASSO_AARQ ∨ ber.length.length ≠ csm_array_unread a1)) :
    (csm_asso_decoder state array).1 = false ∧
    (csm_asso_execute sys state array).1 = 0 ∧
    (csm_asso_execute sys state array).2.1 = state ∧
    (csm_asso_execute sys state array).2.2.buf = array.buf := by
  have hd : ∃ p : csm_array, csm_asso_decoder state array = (false, state, p) ∧
      p.buf = array.buf := by
    rcases hbad with hnone | ⟨ber, a1, hsome, hor⟩
    · refine ⟨array, ?_, rfl⟩
      unfold csm_asso_decoder
      simp only [hnone]
    · refine ⟨a1, ?_, (csm_ber_decode_some_buf hsome).1⟩
      unfold csm_asso_decoder
      simp only [hsome]
      have hnot : ¬(ber.length.length = csm_array_unread a1 ∧
          ber.tag.tag = CSM_ASSO_AARQ) := by
        rcases hor with h | h
        · exact fun hand => h hand.2
        · exact fun hand => h hand.1
      rw [if_neg hnot]
  obtain ⟨p, hdec, hbuf⟩ := hd
  refine ⟨by rw [hdec], ?_, ?_, ?_⟩
  · unfold csm_asso_execute
    rw [if_pos hcf]
    simp only [hdec]
  · unfold csm_asso_execute
    rw [if_pos hcf]
    simp only [hdec]
  · unfold csm_asso_execute
    rw [if_pos hcf]
    simp only [hdec]
    exact hbuf

theorem malformed_outer_header_rejects_aarq_witness :
    (csm_asso_decoder s0 badAarq).1 = false ∧
    (csm_asso_execute sysAcc s0 badAarq).1 = 0 ∧
    (csm_asso_execute sysAcc s0 badAarq).2.1 = s0 ∧
    (csm_asso_execute sysAcc s0 badAarq).2.2.buf = badAarq.buf := by
  exact malformed_outer_header_rejects_aarq sysAcc s0 badAarq (by decide)
    (Or.inr ⟨⟨⟨0x61, 1, 0, false⟩, ⟨0⟩⟩,
      { buf := [0x61, 0x00], cap := 16, rd_index := 2 }, by decide, by decide⟩)

/-- C9: the OID field decoder succeeds only when the seven content bytes at
the cursor are exactly the fixed 5-byte organization prefix followed by a
recognized `(name-selector, id)` pair (`good_oid`); on any other input —
truncated, wrong prefix, or unrecognized pair — it fails and leaves both
`ref` (referencing mode) and `auth_level` untouched. -/
theorem oid_decoder_assigns_only_on_full_match (s : csm_asso_state) (ber : csm_ber) (a : csm_array) :
    (good_oid a = false → (acse_oid_decoder s ber a).1 = false ∧
      (acse_oid_decoder s ber a).2.1 = s) ∧
    (good_oid a = true → (acse_oid_decoder s ber a).1 = true) := by
  have hgood : good_oid a = true ↔
      (a.rd_index + 7 ≤ a.buf.length ∧
       (a.buf.drop a.rd_index).take 5 = cOidHeader ∧
       recognized_oid_pair (a.buf.getD (a.rd_index + 5) 0)
         (a.buf.getD (a.rd_index + 6) 0) = true) := by
    simp [good_oid, and_assoc]
  by_cases h5 : a.rd_index + 5 ≤ a.buf.length
  case neg =>
    have hb : csm_array_read_buff a 5 = none := by
      unfold csm_array_read_buff; rw [if_neg h5]
    have hres : acse_oid_decoder s ber a = (false, s, a) := by
      unfold acse_oid_decoder csm_ber_decode_object_identifier
      simp only [hb]
      simp
    rw [hres]
    refine ⟨fun _ => ⟨rfl, rfl⟩, fun hg => ?_⟩
    have := (hgood.mp hg).1
    omega
  case pos =>
    have hb : csm_array_read_buff a 5 =
        some ((a.buf.drop a.rd_index).take 5,
              { a with rd_index := a.rd_index + 5 }) := by
      unfold csm_array_read_buff; rw [if_pos h5]
    by_cases hpre : (a.buf.drop a.rd_index).take 5 = cOidHeader
    case neg =>
      have hres : acse_oid_decoder s ber a =
          (false, s, { a with rd_index := a.rd_index + 5 }) := by
        unfold acse_oid_decoder csm_ber_decode_object_identifier
        simp only [hb]
        rw [if_neg hpre]
        simp
      rw [hres]
      refine ⟨fun _ => ⟨rfl, rfl⟩, fun hg => ?_⟩
      exact absurd (hgood.mp hg).2.1 hpre
    case pos =>
      by_cases h6 : a.rd_index + 5 < a.buf.length
      case neg =>
        have hn : csm_array_read_u8 { a with rd_index := a.rd_index + 5 } = none := by
          unfold csm_array_read_u8
          rw [if_neg]
          simpa using h6
        have hres : acse_oid_decoder s ber a =
            (false, s, { a with rd_index := a.rd_index + 5 }) := by
          unfold acse_oid_decoder csm_ber_decode_object_identifier
          simp only [hb]
          rw [if_pos hpre]
          simp only [hn]
          simp
        rw [hres]
        refine ⟨fun _ => ⟨rfl, rfl⟩, fun hg => ?_⟩
        have := (hgood.mp hg).1
        omega
      case pos =>
        by_cases h7 : a.rd_index + 6 < a.buf.length
        case neg =>
          have hn : csm_array_read_u8 { a with rd_index := a.rd_index + 5 } =
              some (a.buf.getD (a.rd_index + 5) 0,
                    { a with rd_index := a.rd_index + 5 + 1 }) := by
            unfold csm_array_read_u8
            rw [if_pos]
            simpa using h6
          have hn2 : csm_array_read_u8 { a with rd_index := a.rd_index + 5 + 1 } = none := by
            unfold csm_array_read_u8
            rw [if_neg]
            simp only []
            omega
          have hres : acse_oid_decoder s ber a =
              (false, s, { a with rd_index := a.rd_index + 5 + 1 }) := by
            unfold acse_oid_decoder csm_ber_decode_object_identifier
            simp only [hb]
            rw [if_pos hpre]
            simp only [hn, hn2]
            simp
          rw [hres]
          refine ⟨fun _ => ⟨rfl, rfl⟩, fun hg => ?_⟩
          have := (hgood.mp hg).1
          omega
        case pos =>
          have hx6 : ({ a with rd_index := a.rd_index + 5 } : csm_array).rd_index <
              ({ a with rd_index := a.rd_index + 5 } : csm_array).buf.length := by
            simpa using h6
          have hx7 : ({ a with rd_index := a.rd_index + 6 } : csm_array).rd_index <
              ({ a with rd_index := a.rd_index + 6 } : csm_array).buf.length := by
            simpa using h7
          have hn : csm_array_read_u8 { a with rd_index := a.rd_index + 5 } =
              some (a.buf.getD (a.rd_index + 5) 0,
                    { a with rd_index := a.rd_index + 6 }) := by
            unfold csm_array_read_u8
            rw [if_pos hx6]
          have hn2 : csm_array_read_u8 { a with rd_index := a.rd_index + 6 } =
              some (a.buf.getD (a.rd_index + 6) 0,
                    { a with rd_index := a.rd_index + 7 }) := by
            unfold csm_array_read_u8
            rw [if_pos hx7]
          have hb7 : a.rd_index + 7 ≤ a.buf.length := by omega
          have hgr : good_oid a =
              recognized_oid_pair (a.buf.getD (a.rd_index + 5) 0)
                (a.buf.getD (a.rd_index + 6) 0) := by
            unfold good_oid
            rw [hpre]
            simp [hb7]
          have hunf : acse_oid_decoder s ber a =
              (if a.buf.getD (a.rd_index + 5) 0 = APP_CONTEXT_NAME then
                if a.buf.getD (a.rd_index + 6) 0 = LN_REF then
                  (true, { s with ref := LN_REF }, { a with rd_index := a.rd_index + 7 })
                else if a.buf.getD (a.rd_index + 6) 0 = SN_REF then
                  (true, { s with ref := SN_REF }, { a with rd_index := a.rd_index + 7 })
                else if a.buf.getD (a.rd_index + 6) 0 = LN_REF_WITH_CYPHERING then
                  (true, { s with ref := LN_REF_WITH_CYPHERING },
                   { a with rd_index := a.rd_index + 7 })
                else if a.buf.getD (a.rd_index + 6) 0 = SN_REF_WITH_CYPHERING then
                  (true, { s with ref := SN_REF_WITH_CYPHERING },
                   { a with rd_index := a.rd_index + 7 })
                else (false, s, { a with rd_index := a.rd_index + 7 })
              else if a.buf.getD (a.rd_index + 5) 0 = SECURITY_MECHANISM_NAME then
                if a.buf.getD (a.rd_index + 6) 0 = CSM_AUTH_LOW_LEVEL then
                  (true, { s with auth_level := CSM_AUTH_LOW_LEVEL },
                   { a with rd_index := a.rd_index + 7 })
                else if a.buf.getD (a.rd_index + 6) 0 = CSM_AUTH_HIGH_LEVEL_GMAC then
                  (true, { s with auth_level := CSM_AUTH_HIGH_LEVEL_GMAC },
                   { a with rd_index := a.rd_index + 7 })
                else (false, s, { a with rd_index := a.rd_index + 7 })
              else (false, s, { a with rd_index := a.rd_index + 7 })) := by
            unfold acse_oid_decoder csm_ber_decode_object_identifier
            simp only [hb]
            rw [if_pos hpre]
            simp only [hn, hn2]
            simp
          rw [hunf, hgr]
          constructor
          · intro hg
            split_ifs with g1 g2 g3 g4 g5 g6 g7 g8 <;>
              first
              | exact ⟨rfl, rfl⟩
              | (exfalso
                 have hrec : recognized_oid_pair (a.buf.getD (a.rd_index + 5) 0)
                     (a.buf.getD (a.rd_index + 6) 0) = true := by
                   simp_all [recognized_oid_pair, APP_CONTEXT_NAME,
                     SECURITY_MECHANISM_NAME, LN_REF, SN_REF,
                     LN_REF_WITH_CYPHERING, SN_REF_WITH_CYPHERING,
                     CSM_AUTH_LOW_LEVEL, CSM_AUTH_HIGH_LEVEL_GMAC]
                 rw [hrec] at hg
                 exact absurd hg (by decide))
          · intro hg
            split_ifs with g1 g2 g3 g4 g5 g6 g7 g8 <;>
              first
              | rfl
              | (exfalso
                 have hrec : recognized_oid_pair (a.buf.getD (a.rd_index + 5) 0)
                     (a.buf.getD (a.rd_index + 6) 0) = false := by
                   simp_all [recognized_oid_pair, beq_iff_eq, APP_CONTEXT_NAME,
                     SECURITY_MECHANISM_NAME, LN_REF, SN_REF,
                     LN_REF_WITH_CYPHERING, SN_REF_WITH_CYPHERING,
                     CSM_AUTH_LOW_LEVEL, CSM_AUTH_HIGH_LEVEL_GMAC]
                 rw [hrec] at hg
                 exact absurd hg (by decide))

theorem oid_decoder_assigns_only_on_full_match_witness :
    ((acse_oid_decoder s0 berW oidBadArr).1 = false ∧
      (acse_oid_decoder s0 berW oidBadArr).2.1 = s0) ∧
    (acse_oid_decoder s0 berW oidGoodArr).1 = true := by
  exact ⟨(oid_decoder_assigns_only_on_full_match s0 berW oidBadArr).1 (by decide),
         (oid_decoder_assigns_only_on_full_match s0 berW oidGoodArr).2 (by decide)⟩

theorem wrSeq_append (p : Bool × csm_array) (bs1 bs2 : List Nat) :
    wrSeq (wrSeq p bs1) bs2 = wrSeq p (bs1 ++ bs2) := by
  unfold wrSeq
  rw [List.foldl_append]

theorem bset_fst_true {p : Bool × csm_array} {i v : Nat}
    (h : (bset p i v).1 = true) : p.1 = true := by
  unfold bset at h
  split at h
  · assumption
  · exact h

theorem bset_eq_of_lt {p : Bool × csm_array} {i v : Nat} (hp : p.1 = true)
    (hi : i < p.2.buf.length) :
    bset p i v = (true, { p.2 with buf := p.2.buf.set i (v % 256) }) := by
  unfold bset
  rw [if_pos hp]
  unfold csm_array_set
  rw [if_pos hi]

theorem user_info_encoder_patches {sys : csm_sys} {s s1 : csm_asso_state}
    {a a1 : csm_array} (h : acse_user_info_encoder sys s a = (true, s1, a1)) :
    a1.buf.length = a.buf.length + 17 ∧
    a1.buf.get? a.buf.length = some ((a1.buf.length - a.buf.length) - 1) ∧
    a1.buf.get? (a.buf.length + 2) = some ((a1.buf.length - a.buf.length) - 3) := by
  unfold acse_user_info_encoder at h
  simp only [wrSeq_append] at h
  by_cases href : s.ref = LN_REF ∨ s.ref = LN_REF_WITH_CYPHERING
  · rw [if_pos href] at h
    have hflag := congrArg Prod.fst h
    have harr := congrArg (fun t => t.2.2) h
    simp only at hflag harr
    set Q := wrSeq (true, a)
      ([0, BER_TYPE_OCTET_STRING, 0, AXDR_INITIATE_RESPONSE, 0, 6, 95, 31, 4, 0,
        s.config.conformance / 65536 % 256, s.config.conformance / 256 % 256,
        s.config.conformance % 256, CSM_DEF_PDU_SIZE / 256 % 256,
        CSM_DEF_PDU_SIZE % 256] ++ [0, 7]) with hQ
    have hq1 : Q.1 = true := bset_fst_true (bset_fst_true hflag)
    obtain ⟨hbuf, hcap, hrd⟩ := wrSeq_true_buf (hQ ▸ hq1)
    rw [← hQ] at hbuf
    have hlen17 : Q.2.buf.length = a.buf.length + 17 := by
      rw [hbuf]; simp
    have hb2 := bset_eq_of_lt (p := Q)
      (v := Q.2.buf.length - a.buf.length - 1) hq1
      (show a.buf.length < Q.2.buf.length by omega)
    rw [hb2] at hflag harr
    have hb3 := bset_eq_of_lt
      (p := (true, { Q.2 with
        buf := Q.2.buf.set a.buf.length ((Q.2.buf.length - a.buf.length - 1) % 256) }))
      (i := a.buf.length + 2) (v := Q.2.buf.length - a.buf.length - 3)
      rfl (by simp; omega)
    rw [hb3] at harr
    have ha1 : a1.buf = (Q.2.buf.set a.buf.length
        ((Q.2.buf.length - a.buf.length - 1) % 256)).set (a.buf.length + 2)
        ((Q.2.buf.length - a.buf.length - 3) % 256) := by
      have hc := congrArg csm_array.buf harr
      simpa using hc.symm
    have hv1 : (Q.2.buf.length - a.buf.length - 1) % 256 = 16 := by omega
    have hv3 : (Q.2.buf.length - a.buf.length - 3) % 256 = 14 := by omega
    have hlena1 : a1.buf.length = a.buf.length + 17 := by
      rw [ha1]; simp [hlen17]
    have hg1 : a1.buf.get? a.buf.length = some 16 := by
      rw [ha1, hv1, List.get?_eq_getElem?, List.getElem?_set_ne (by omega),
        List.getElem?_set_eq_of_lt]
      omega
    have hg2 : a1.buf.get? (a.buf.length + 2) = some 14 := by
      rw [ha1, hv3, List.get?_eq_getElem?, List.getElem?_set_eq_of_lt]
      simp
      omega
    refine ⟨hlena1, ?_, ?_⟩
    · have he : a1.buf.length - a.buf.length - 1 = 16 := by omega
      rw [he]; exact hg1
    · have he : a1.buf.length - a.buf.length - 3 = 14 := by omega
      rw [he]; exact hg2
  · rw [if_neg href] at h
    have hflag := congrArg Prod.fst h
    have harr := congrArg (fun t => t.2.2) h
    simp only at hflag harr
    set Q := wrSeq (true, a)
      ([0, BER_TYPE_OCTET_STRING, 0, AXDR_INITIATE_RESPONSE, 0, 6, 95, 31, 4, 0,
        s.config.conformance / 65536 % 256, s.config.conformance / 256 % 256,
        s.config.conformance % 256, CSM_DEF_PDU_SIZE / 256 % 256,
        CSM_DEF_PDU_SIZE % 256] ++ [250, 0]) with hQ
    have hq1 : Q.1 = true := bset_fst_true (bset_fst_true hflag)
    obtain ⟨hbuf, hcap, hrd⟩ := wrSeq_true_buf (hQ ▸ hq1)
    rw [← hQ] at hbuf
    have hlen17 : Q.2.buf.length = a.buf.length + 17 := by
      rw [hbuf]; simp
    have hb2 := bset_eq_of_lt (p := Q)
      (v := Q.2.buf.length - a.buf.length - 1) hq1
      (show a.buf.length < Q.2.buf.length by omega)
    rw [hb2] at hflag harr
    have hb3 := bset_eq_of_lt
      (p := (true, { Q.2 with
        buf := Q.2.buf.set a.buf.length ((Q.2.buf.length - a.buf.length - 1) % 256) }))
      (i := a.buf.length + 2) (v := Q.2.buf.length - a.buf.length - 3)
      rfl (by simp; omega)
    rw [hb3] at harr
    have ha1 : a1.buf = (Q.2.buf.set a.buf.length
        ((Q.2.buf.length - a.buf.length - 1) % 256)).set (a.buf.length + 2)
        ((Q.2.buf.length - a.buf.length - 3) % 256) := by
      have hc := congrArg csm_array.buf harr
      simpa using hc.symm
    have hv1 : (Q.2.buf.length - a.buf.length - 1) % 256 = 16 := by omega
    have hv3 : (Q.2.buf.length - a.buf.length - 3) % 256 = 14 := by omega
    have hlena1 : a1.buf.length = a.buf.length + 17 := by
      rw [ha1]; simp [hlen17]
    have hg1 : a1.buf.get? a.buf.length = some 16 := by
      rw [ha1, hv1, List.get?_eq_getElem?, List.getElem?_set_ne (by omega),
        List.getElem?_set_eq_of_lt]
      omega
    have hg2 : a1.buf.get? (a.buf.length + 2) = some 14 := by
      rw [ha1, hv3, List.get?_eq_getElem?, List.getElem?_set_eq_of_lt]
      simp
      omega
    refine ⟨hlena1, ?_, ?_⟩
    · have he : a1.buf.length - a.buf.length - 1 = 16 := by omega
      rw [he]; exact hg1
    · have he : a1.buf.length - a.buf.length - 3 = 14 := by omega
      rw [he]; exact hg2


theorem aare_outer_length_patch {sys : csm_sys} {s s1 : csm_asso_state}
    {a a1 : csm_array} (h : csm_asso_encoder sys s a = (true, s1, a1))
    (hsize : a1.buf.length ≤ 129) :
    a1.buf.get? 1 = some (a1.buf.length - 2) := by
  unfold csm_asso_encoder at h
  cases hw1 : csm_array_write_u8 { a with buf := [] } CSM_ASSO_AARE with
  | none => simp only [hw1] at h; simp at h
  | some a2 =>
    simp only [hw1] at h
    cases hw2 : csm_array_write_u8 a2 0 with
    | none => simp only [hw2] at h; simp at h
    | some a3 =>
      simp only [hw2] at h
      set r := encode_chain sys s a3 aare_codec_chain with hrdef
      cases hr : r.1 with
      | false => rw [hr] at h; simp at h
      | true =>
        rw [hr] at h
        simp only [eq_self_iff_true, if_true] at h
        have harr := congrArg (fun t => t.2.2) h
        simp only at harr
        have hmono : a3.buf.length ≤ r.2.2.buf.length := by
          rw [hrdef]
          exact encode_chain_mono sys aare_codec_chain aare_insert_funcs_mono s a3
        obtain ⟨e2, _, _⟩ := csm_array_write_u8_some hw1
        obtain ⟨e3, _, _⟩ := csm_array_write_u8_some hw2
        have hlen3 : a3.buf.length = 2 := by
          rw [e3, e2]; simp
        have hset : csm_array_set r.2.2 1 (r.2.2.buf.length - 2) =
            some { r.2.2 with buf := r.2.2.buf.set 1 ((r.2.2.buf.length - 2) % 256) } := by
          unfold csm_array_set
          rw [if_pos (by omega)]
        rw [hset] at harr
        simp only [Option.getD_some] at harr
        have ha1 : a1.buf = r.2.2.buf.set 1 ((r.2.2.buf.length - 2) % 256) := by
          rw [← harr]
        have hlen : a1.buf.length = r.2.2.buf.length := by
          rw [ha1]; simp
        have hmod : (r.2.2.buf.length - 2) % 256 = r.2.2.buf.length - 2 :=
          Nat.mod_eq_of_lt (by omega)
        rw [hlen, ha1, hmod, List.get?_eq_getElem?,
          List.getElem?_set_eq_of_lt _ (by omega)]

/-- C6: backpatched length invariants of the AARE encoder.  For every
successfully encoded AARE whose total size fits the single-byte length form
of this profile, the length byte at offset 1 equals the number of bytes
written after it; and every successful run of the nested InitiateResponse
encoder writes a 17-byte user-information body whose two reserved size
bytes are patched to the body length minus one and minus three. -/
theorem aare_backpatched_length_fields :
    (∀ (sys : csm_sys) (s : csm_asso_state) (a : csm_array)
       (s1 : csm_asso_state) (a1 : csm_array),
      csm_asso_encoder sys s a = (true, s1, a1) → a1.buf.length ≤ 129 →
      a1.buf.get? 1 = some (a1.buf.length - 2)) ∧
    (∀ (sys : csm_sys) (s : csm_asso_state) (a : csm_array)
       (s1 : csm_asso_state) (a1 : csm_array),
      acse_user_info_encoder sys s a = (true, s1, a1) →
      a1.buf.length = a.buf.length + 17 ∧
      a1.buf.get? a.buf.length = some ((a1.buf.length - a.buf.length) - 1) ∧
      a1.buf.get? (a.buf.length + 2) = some ((a1.buf.length - a.buf.length) - 3)) :=
  ⟨fun _ _ _ _ _ h hs => aare_outer_length_patch h hs,
   fun _ _ _ _ _ h => user_info_encoder_patches h⟩

theorem aare_backpatched_length_fields_witness :
    c6out.2.2.buf.get? 1 = some (c6out.2.2.buf.length - 2) ∧
    c6ui.2.2.buf.length = arr32.buf.length + 17 ∧
    c6ui.2.2.buf.get? arr32.buf.length =
      some ((c6ui.2.2.buf.length - arr32.buf.length) - 1) ∧
    c6ui.2.2.buf.get? (arr32.buf.length + 2) =
      some ((c6ui.2.2.buf.length - arr32.buf.length) - 3) := by
  have h1 := aare_backpatched_length_fields.1 sysAcc s0 aarqLowest
    c6out.2.1 c6out.2.2 (by decide) (by decide)
  have h2 := aare_backpatched_length_fields.2 sysAcc sC1 arr32
    c6ui.2.1 c6ui.2.2 (by decide)
  exact ⟨h1, h2.1, h2.2.1, h2.2.2⟩
